import Mathlib

/-!
Verification development for the SECOP I scraping pipeline
(`cleaning.py`, `parser.py`, `api_scraper.py`, `detail_scraper.py`,
`exceptions.py`, `main.py`).

The Python modules are shallowly embedded as executable Lean definitions.
Conventions used throughout:

* Python strings are `String` / `List Char`; all string primitives used by
  the source (`strip`, `split`, `replace`, `lower`, `in`) are re-implemented
  structurally below so they evaluate inside the kernel.
* Python `float` results of parsing decimal literals are modelled as `Rat`
  (exact decimal arithmetic); Python's `float(str)` is modelled on the
  grammar of finite decimal literals (optional sign, digits, optional
  fractional part) — exponent, `inf`/`nan` and `_` digit separators, which
  no code path here produces intentionally, are outside the model.
* A pandas `DataFrame` is a list of column names, a parallel list of column
  dtypes and a list of rows of cells; a cell is null (`NaN`/`None`), a
  string, a float (`Rat`) or a timestamp.
* Fallible Python functions return `Option`/`Except`; the exception classes
  of `exceptions.py` become the constructors of `SecopErr`.
-/

namespace Secop

/-! ### String toolkit (Python string primitives, list-level) -/

/-- The whitespace set of Python `str.strip`. -/
def esEspacioPy (c : Char) : Bool :=
  c = ' ' || c = '\t' || c = '\n' || c = '\r' || c = '\x0b' || c = '\x0c'

/-- Python `str.strip()` on a character list. -/
def stripChars (cs : List Char) : List Char :=
  ((cs.dropWhile esEspacioPy).reverse.dropWhile esEspacioPy).reverse

/-- Python `str.strip()`. -/
def pyStrip (s : String) : String :=
  String.mk (stripChars s.data)

/-- Python `str.lower()` for the characters appearing in this code base
(ASCII plus the accented Spanish capitals). -/
def pyLowerChar (c : Char) : Char :=
  if c = 'Á' then 'á'
  else if c = 'É' then 'é'
  else if c = 'Í' then 'í'
  else if c = 'Ó' then 'ó'
  else if c = 'Ú' then 'ú'
  else if c = 'Ñ' then 'ñ'
  else if c = 'Ü' then 'ü'
  else c.toLower

/-- Python `str.lower()`. -/
def pyLower (s : String) : String :=
  String.mk (s.data.map pyLowerChar)

/-- Python `s.split(sep)` for a one-character separator: always returns at
least one (possibly empty) part. -/
def splitOnChar (sep : Char) : List Char → List (List Char)
  | [] => [[]]
  | c :: cs =>
    let rest := splitOnChar sep cs
    if c = sep then [] :: rest
    else match rest with
      | [] => [[c]]
      | p :: ps => (c :: p) :: ps

/-- Python `sep.join(parts)` for a one-character separator. -/
def joinConSep (sep : Char) : List (List Char) → List Char
  | [] => []
  | [p] => p
  | p :: ps => p ++ sep :: joinConSep sep ps

/-- Python `pat in s` (substring containment) on character lists. -/
def hayInfijo (pat : List Char) : List Char → Bool
  | [] => pat.isEmpty
  | c :: t => pat.isPrefixOf (c :: t) || hayInfijo pat t

/-- Python `pat in s` on strings. -/
def contieneSub (pat s : String) : Bool :=
  hayInfijo pat.data s.data

/-- Numeric value of a digit-character list (most significant first). -/
def digitsVal (cs : List Char) : Nat :=
  cs.foldl (fun a c => a * 10 + (c.toNat - 48)) 0

/-! ### Python `float(str)` on finite decimal literals -/

/-- Parse body of a decimal literal — `digits`, `digits.digits?`, `.digits` —
to an (unsigned numerator, denominator) pair. -/
def pyFloatCuerpo (cs : List Char) : Option (Nat × Nat) :=
  let ent := cs.takeWhile Char.isDigit
  let resto := cs.dropWhile Char.isDigit
  match resto with
  | [] => if ent.isEmpty then none else some (digitsVal ent, 1)
  | c :: frac =>
    if c = '.' then
      if frac.all Char.isDigit && !(ent.isEmpty && frac.isEmpty) then
        some (digitsVal ent * 10 ^ frac.length + digitsVal frac, 10 ^ frac.length)
      else none
    else none

/-- Python `float(s)` restricted to finite decimal literals (see header). -/
def pyFloatChars (cs : List Char) : Option Rat :=
  match cs with
  | [] => none
  | c :: resto =>
    if c = '-' then (pyFloatCuerpo resto).map (fun p => mkRat (-(p.1 : Int)) p.2)
    else if c = '+' then (pyFloatCuerpo resto).map (fun p => mkRat p.1 p.2)
    else (pyFloatCuerpo (c :: resto)).map (fun p => mkRat p.1 p.2)

/-! ### `cleaning.py` — `_convertir_moneda_colombiana` -/

/-- The preprocessing of `_convertir_moneda_colombiana`:
`s = valor.strip()`, `s = re.sub(r"^[^\d\-]*", "", s)` (drop the prefix of
characters that are neither digits nor `-`), `s = s.replace(" ", "")`. -/
def preprocMoneda (valor : String) : List Char :=
  ((stripChars valor.data).dropWhile (fun c => !(c.isDigit || c = '-'))).filter
    (fun c => c ≠ ' ')

/-- Embeds `cleaning._convertir_moneda_colombiana`: Colombian currency string to
float (`Rat` here), `None` when unparsable.  Total by construction, as the
source wraps every `float(...)` in `try/except` and returns `None`. -/
def _convertir_moneda_colombiana (valor : String) : Option Rat :=
  -- `if not valor or valor.strip() == "": return None` (short-circuit or)
  if valor = "" then none
  else if stripChars valor.data = [] then none
  else
    let s := preprocMoneda valor
    if s = [] then none
    else if s.contains ',' then
      -- comma present: `partes = s.split(",")`; integer = partes[0] minus
      -- dots, fraction = partes[1] (text between the first two commas)
      let partes := splitOnChar ',' s
      let entero := (partes.headD []).filter (fun c => c ≠ '.')
      let decimal := (partes.tail.headD ['0'])
      pyFloatChars (entero ++ '.' :: decimal)
    else if s.contains '.' then
      -- only dots: last dot-group is decimal iff it has ≤ 2 characters
      let partes := splitOnChar '.' s
      let ultima := partes.getLastD []
      if ultima.length ≤ 2 && partes.length > 1 then
        pyFloatChars (partes.dropLast.foldr (· ++ ·) [] ++ '.' :: ultima)
      else
        pyFloatChars (s.filter (fun c => c ≠ '.'))
    else
      pyFloatChars s

/-- Spec side of claim C4, its comma sentence taken literally: everything
before the *last* comma is the thousands-separated integer part (dots
removed) and the text after the last comma is the fractional part. -/
def reglaUltimaComa (t : List Char) : Option Rat :=
  let partes := splitOnChar ',' t
  let antes := joinConSep ',' partes.dropLast
  pyFloatChars (antes.filter (fun c => c ≠ '.') ++ '.' :: partes.getLastD [])

/-- Spec side of the amended comma sentence: everything before the *first*
comma is the integer part (dots removed) and the text between the first and
second commas (to the end when there is no second) is the fractional part. -/
def reglaPrimeraComa (t : List Char) : Option Rat :=
  let partes := splitOnChar ',' t
  pyFloatChars ((partes.headD []).filter (fun c => c ≠ '.') ++
    '.' :: partes.tail.headD ['0'])

/-- Spec side of the dots-only sentence: the last dot-delimited group is
fractional exactly when it has at most two characters; otherwise every dot
is a thousands separator. -/
def reglaPuntos (t : List Char) : Option Rat :=
  let partes := splitOnChar '.' t
  let ultima := partes.getLastD []
  if ultima.length ≤ 2 && partes.length > 1 then
    pyFloatChars (partes.dropLast.foldr (· ++ ·) [] ++ '.' :: ultima)
  else
    pyFloatChars (t.filter (fun c => c ≠ '.'))

/-! ### `config.py` — canonical column names -/

/-- Embeds `config.COLUMNAS_RESULTADO`. -/
def COLUMNAS_RESULTADO : List String :=
  ["numero_proceso", "entidad", "objeto_contrato", "modalidad",
   "fecha_apertura", "fecha_cierre", "cuantia", "estado",
   "departamento", "municipio"]

/-- Embeds `config.COLUMNAS_MONETARIAS`. -/
def COLUMNAS_MONETARIAS : List String :=
  ["cuantia", "valor_estimado", "valor_adjudicado", "valor_contrato"]

/-- Embeds `config.COLUMNAS_FECHA`. -/
def COLUMNAS_FECHA : List String :=
  ["fecha_apertura", "fecha_cierre", "fecha_adjudicacion", "fecha_contrato"]

/-- Embeds `config.SECOP_BASE_URL`. -/
def SECOP_BASE_URL : String := "https://www.contratos.gov.co"

/-! ### The pandas data model -/

/-- A timestamp (`pd.Timestamp`), to calendar-second precision. -/
structure Timestamp where
  year : Nat
  month : Nat
  day : Nat
  hour : Nat
  minute : Nat
  second : Nat
deriving DecidableEq, Repr

/-- One cell of a pandas `DataFrame`: `NaN`/`None`, a string, a float
(modelled as `Rat`) or a timestamp. -/
inductive Cell where
  | null : Cell
  | str (s : String) : Cell
  | num (q : Rat) : Cell
  | ts (t : Timestamp) : Cell
deriving DecidableEq, Repr

/-- A pandas column dtype, as far as this pipeline distinguishes them. -/
inductive DType where
  | obj : DType
  | float64 : DType
  | datetime : DType
deriving DecidableEq, Repr

/-- A pandas `DataFrame`: column names, a parallel list of column dtypes,
and rows of cells.  The positional index is not modelled. -/
structure DataFrame where
  cols : List String
  dtypes : List DType
  rows : List (List Cell)
deriving DecidableEq, Repr

/-- Left-pad a numeral string with zeros to two characters. -/
def pad2 (n : Nat) : String :=
  if n < 10 then "0" ++ toString n else toString n

/-- Python `str(...)` on a timestamp, as pandas renders it. -/
def tsToPyStr (t : Timestamp) : String :=
  toString t.year ++ "-" ++ pad2 t.month ++ "-" ++ pad2 t.day ++ " " ++
    pad2 t.hour ++ ":" ++ pad2 t.minute ++ ":" ++ pad2 t.second

/-- Python `str(...)` on a cell, as used by `.astype(str)` and by the
empty-row mask: `str(nan)` is `"nan"`.  Floats with unit denominator render
as Python does (`"123.0"`); other rationals cannot arise from this
pipeline's cell transformations and get a nominal rendering. -/
def cellToPyStr (c : Cell) : String :=
  match c with
  | Cell.null => "nan"
  | Cell.str s => s
  | Cell.num q => if q.den = 1 then toString q.num ++ ".0"
                  else toString q.num ++ "/" ++ toString q.den
  | Cell.ts t => tsToPyStr t

/-! ### `cleaning.py` — string normalization -/

/-- Replace every run (length ≥ 1) of characters satisfying `p` by `r`:
`re.sub(r"[...]+", r, s)`. -/
def colapsa1Aux (p : Char → Bool) (r : Char) (enRun : Bool) : List Char → List Char
  | [] => []
  | c :: cs =>
    if p c then
      if enRun then colapsa1Aux p r true cs else r :: colapsa1Aux p r true cs
    else c :: colapsa1Aux p r false cs

/-- Replace every run of length ≥ 2 of characters satisfying `p` by `r`,
leaving single occurrences alone: `re.sub(r"[...]{2,}", r, s)`.
State: `none` = outside a run, `some (some c)` = one pending character `c`,
`some none` = inside an already-collapsed run. -/
def colapsa2Aux (p : Char → Bool) (r : Char) (e : Option (Option Char)) :
    List Char → List Char
  | [] => match e with | some (some c) => [c] | _ => []
  | c :: cs =>
    if p c then
      match e with
      | none => colapsa2Aux p r (some (some c)) cs
      | some (some _) => r :: colapsa2Aux p r (some none) cs
      | some none => colapsa2Aux p r (some none) cs
    else
      match e with
      | some (some d) => d :: c :: colapsa2Aux p r none cs
      | _ => c :: colapsa2Aux p r none cs

/-- Embeds `cleaning._normalizar_string`: `NaN` to `""`, line breaks and tabs to
spaces, multiple whitespace collapsed, then `strip()`. -/
def _normalizar_string (valor : Cell) : String :=
  match valor with
  | Cell.null => ""
  | v =>
    let s := (cellToPyStr v).data
    let s := colapsa1Aux (fun c => c = '\n' || c = '\r' || c = '\t') ' ' false s
    let s := colapsa2Aux esEspacioPy ' ' none s
    String.mk (stripChars s)

/-- Embeds `cleaning.normalizar_strings`: apply `_normalizar_string` to every cell
of every object-dtype column (`select_dtypes(include=["object"])`). -/
def normalizar_strings (df : DataFrame) : DataFrame :=
  { df with rows := df.rows.map (fun r =>
      List.zipWith (fun c dt =>
        if dt = DType.obj then Cell.str (_normalizar_string c) else c)
        r df.dtypes) }

/-! ### `cleaning.py` — empty-row elimination -/

/-- Embeds `df.dropna(how="all")`: drop the rows whose cells are all null. -/
def dropnaTodo (df : DataFrame) : DataFrame :=
  { df with rows := df.rows.filter (fun r => !(r.all (fun c => c == Cell.null))) }

/-- The mask of `eliminar_filas_vacias` step 2 on one row: every value of an
object-dtype column satisfies `str(v).strip() == ""`. -/
def filaObjVacia (dts : List DType) (r : List Cell) : Bool :=
  ((r.zip dts).filter (fun p => p.2 == DType.obj)).all
    (fun p => pyStrip (cellToPyStr p.1) == "")

/-- Embeds `df = df[~mask_vacios]`: keep the rows that are not all-blank on the
object-dtype columns. -/
def filtrarFilasObjVacias (df : DataFrame) : DataFrame :=
  { df with rows := df.rows.filter (fun r => !filaObjVacia df.dtypes r) }

/-- Embeds `cleaning.eliminar_filas_vacias`: `dropna(how="all")`, then, when there
is at least one object-dtype column, drop the rows that are all-blank on
the object-dtype columns.  (`reset_index` only touches the positional
index, which is not modelled.) -/
def eliminar_filas_vacias (df : DataFrame) : DataFrame :=
  let d1 := dropnaTodo df
  if d1.dtypes.any (fun dt => dt == DType.obj) then filtrarFilasObjVacias d1
  else d1

/-! ### `cleaning.py` — column renaming -/

/-- First index of a column name (pandas column lookup). -/
def idxCol (c : String) : List String → Nat
  | [] => 0
  | x :: xs => if x = c then 0 else idxCol c xs + 1

/-- Association-list lookup, `dict.get(k)`. -/
def buscarMapa (m : List (String × String)) (k : String) : Option String :=
  (m.find? (fun p => p.1 == k)).map (fun p => p.2)

/-- Embeds `cleaning.renombrar_columnas`: rename with an explicit mapping when
given; otherwise, when the columns differ from `COLUMNAS_RESULTADO` and all
are generic `col_i` names, assign `COLUMNAS_RESULTADO[:len(df.columns)]`
positionally.  (The pandas `ValueError` on a length mismatch of that last
assignment — only reachable on a hand-built frame with more than ten
`col_`-named columns — is outside the model.) -/
def renombrar_columnas (df : DataFrame) (mapeo : Option (List (String × String))) :
    DataFrame :=
  match mapeo with
  | some m =>
    { df with cols := df.cols.map (fun c => (buscarMapa m c).getD c) }
  | none =>
    if df.cols = COLUMNAS_RESULTADO then df
    else if df.cols.all (fun c => "col_".data.isPrefixOf c.data) then
      { df with cols := COLUMNAS_RESULTADO.take df.cols.length }
    else df

/-! ### `cleaning.py` — money and date columns -/

/-- Embeds `df[col].astype(str).map(f)` result on one cell for the money columns:
unparsable values become null, never dropped or zeroed. -/
def celdaMoneda (c : Cell) : Cell :=
  match _convertir_moneda_colombiana (cellToPyStr c) with
  | some q => Cell.num q
  | none => Cell.null

/-- Replace column `col` of `df` cell-wise by `f` and set its dtype. -/
def aplicarColumna (df : DataFrame) (col : String) (f : Cell → Cell)
    (dt : DType) : DataFrame :=
  let i := idxCol col df.cols
  { df with rows := df.rows.map (fun r => r.set i (f (r.getD i Cell.null))),
            dtypes := df.dtypes.set i dt }

/-- Embeds `cleaning.convertir_columnas_monetarias`: convert, in order, every
column of `COLUMNAS_MONETARIAS` present in the frame. -/
def convertir_columnas_monetarias (df : DataFrame) : DataFrame :=
  COLUMNAS_MONETARIAS.foldl
    (fun d col => if col ∈ d.cols then aplicarColumna d col celdaMoneda DType.float64 else d)
    df

/-- Parse an unsigned decimal field of bounded width. -/
def campoNat (cs : List Char) (anchoMax : Nat) : Option Nat :=
  if cs.length ≥ 1 && cs.length ≤ anchoMax && cs.all Char.isDigit then
    some (digitsVal cs)
  else none

/-- Days in a month, with leap years. -/
def diasEnMes (y m : Nat) : Nat :=
  if m = 2 then
    if y % 4 = 0 && (y % 100 ≠ 0 || y % 400 = 0) then 29 else 28
  else if m = 4 || m = 6 || m = 9 || m = 11 then 30
  else 31

/-- Calendar validity, as `pd.to_datetime` enforces per format. -/
def fechaValida (y m d : Nat) : Bool :=
  1 ≤ m && m ≤ 12 && 1 ≤ d && d ≤ diasEnMes y m

def horaValida (h mi s : Nat) : Bool :=
  h ≤ 23 && mi ≤ 59 && s ≤ 59

/-- Parse `"%d<sep>%m<sep>%Y"`. -/
def parseDMA (sep : Char) (cs : List Char) : Option Timestamp :=
  match splitOnChar sep cs with
  | [d, m, y] => do
    let dd ← campoNat d 2
    let mm ← campoNat m 2
    let yy ← campoNat y 4
    if fechaValida yy mm dd then some ⟨yy, mm, dd, 0, 0, 0⟩ else none
  | _ => none

/-- Parse `"%Y-%m-%d"`. -/
def parseAMD (cs : List Char) : Option Timestamp :=
  match splitOnChar '-' cs with
  | [y, m, d] => do
    let yy ← campoNat y 4
    let mm ← campoNat m 2
    let dd ← campoNat d 2
    if fechaValida yy mm dd then some ⟨yy, mm, dd, 0, 0, 0⟩ else none
  | _ => none

/-- Parse `"%H:%M"` or `"%H:%M:%S"`. -/
def parseHora (conSeg : Bool) (cs : List Char) : Option (Nat × Nat × Nat) :=
  match conSeg, splitOnChar ':' cs with
  | false, [h, mi] => do
    let hh ← campoNat h 2
    let mm ← campoNat mi 2
    if horaValida hh mm 0 then some (hh, mm, 0) else none
  | true, [h, mi, s] => do
    let hh ← campoNat h 2
    let mm ← campoNat mi 2
    let ss ← campoNat s 2
    if horaValida hh mm ss then some (hh, mm, ss) else none
  | _, _ => none

/-- Parse a date-plus-time format split on `sepDT`. -/
def parseFechaHora (sepDT : Char) (fecha : List Char → Option Timestamp)
    (conSeg : Bool) (cs : List Char) : Option Timestamp :=
  match splitOnChar sepDT cs with
  | [df, ht] => do
    let t ← fecha df
    let (hh, mm, ss) ← parseHora conSeg ht
    some { t with hour := hh, minute := mm, second := ss }
  | _ => none

/-- The pandas day-first lenient inference used as the last resort of
`_parsear_fecha`, modelled as: a `d/m/Y` or `Y-m-d` date with either
separator and an optional `H:M[:S]` time part. -/
def inferenciaFechaPy (cs : List Char) : Option Timestamp :=
  match splitOnChar ' ' cs with
  | [d] =>
    (parseDMA '/' d).orElse (fun _ => (parseDMA '-' d).orElse (fun _ =>
      (parseAMD d).orElse (fun _ => none)))
  | [d, h] => do
    let t ← (parseDMA '/' d).orElse (fun _ => (parseDMA '-' d).orElse (fun _ =>
      (parseAMD d).orElse (fun _ => none)))
    let (hh, mm, ss) ← (parseHora false h).orElse (fun _ => parseHora true h)
    some { t with hour := hh, minute := mm, second := ss }
  | _ => none

/-- Embeds `cleaning._parsear_fecha`: try the explicit formats of
`_FORMATOS_FECHA` in order, then the lenient day-first inference; `None`
when nothing matches. -/
def _parsear_fecha (valor : String) : Option Timestamp :=
  if valor = "" then none
  else if stripChars valor.data = [] then none
  else
    let s := stripChars valor.data
    (parseDMA '/' s).orElse (fun _ =>
    (parseDMA '-' s).orElse (fun _ =>
    (parseAMD s).orElse (fun _ =>
    (parseFechaHora ' ' (parseDMA '/') false s).orElse (fun _ =>
    (parseFechaHora ' ' (parseDMA '/') true s).orElse (fun _ =>
    (parseFechaHora 'T' parseAMD true s).orElse (fun _ =>
    inferenciaFechaPy s))))))

/-- Embeds `df[col].astype(str).map(_parsear_fecha)` on one cell. -/
def celdaFecha (c : Cell) : Cell :=
  match _parsear_fecha (cellToPyStr c) with
  | some t => Cell.ts t
  | none => Cell.null

/-- Embeds `cleaning.convertir_columnas_fecha`. -/
def convertir_columnas_fecha (df : DataFrame) : DataFrame :=
  COLUMNAS_FECHA.foldl
    (fun d col => if col ∈ d.cols then aplicarColumna d col celdaFecha DType.datetime else d)
    df

/-- Embeds `cleaning.limpiar_dataframe`: normalize strings, drop empty rows,
rename columns, convert money columns, convert date columns.  (The quality
report of `generar_reporte_calidad` is computed for logging only and does
not alter the frame.) -/
def limpiar_dataframe (df : DataFrame)
    (mapeo_columnas : Option (List (String × String))) : DataFrame :=
  let df := normalizar_strings df
  let df := eliminar_filas_vacias df
  let df := renombrar_columnas df mapeo_columnas
  let df := convertir_columnas_monetarias df
  let df := convertir_columnas_fecha df
  df

/-! ### Object-identity model of the cleaning functions

Each `cleaning.py` function starts with `df = df.copy()` and then mutates
only that copy.  To state this (claim about Python object identity, not
about values), frames live in a store — a list of frame objects — and each
`*_prog` function takes the store and the index of its argument frame,
allocates the copies the source allocates, performs the in-place updates on
them, and returns the index of the frame the source returns.  The indices
below `s.length` are the objects that existed before the call. -/

/-- A heap of `DataFrame` objects, addressed by allocation index. -/
abbrev Store : Type := List DataFrame

/-- The empty frame, used as an out-of-range default. -/
def dfVacio : DataFrame := ⟨[], [], []⟩

/-- Read a frame object from the store. -/
def leerF (s : Store) (i : Nat) : DataFrame :=
  List.getD s i dfVacio

/-- Store length (next allocation index). -/
def tamStore (s : Store) : Nat := List.length s

/-- Allocate a frame (`append`), returning the store and its index. -/
def alojar (s : Store) (d : DataFrame) : Store × Nat :=
  (s ++ [d], tamStore s)

/-- Overwrite the frame object at index `j` (an in-place mutation). -/
def mutar (s : Store) (j : Nat) (d : DataFrame) : Store :=
  List.set s j d

/-- Embeds `normalizar_strings`: `df = df.copy()`, then the per-column
`df[col] = df[col].map(_normalizar_string)` loop on the copy. -/
def normalizar_strings_prog (s : Store) (i : Nat) : Store × Nat :=
  let (s1, j) := alojar s (leerF s i)
  let s2 := mutar s1 j (normalizar_strings (leerF s1 j))
  (s2, j)

/-- Embeds `eliminar_filas_vacias`: `df = df.copy()`, `df.dropna(how="all",
inplace=True)` on the copy, then — when object columns exist —
`df = df[~mask_vacios]`, a second fresh frame, which `reset_index` then
mutates (index not modelled). -/
def eliminar_filas_vacias_prog (s : Store) (i : Nat) : Store × Nat :=
  let (s1, j) := alojar s (leerF s i)
  let s2 := mutar s1 j (dropnaTodo (leerF s1 j))
  let dfj := leerF s2 j
  if dfj.dtypes.any (fun dt => dt == DType.obj) then
    let (s3, k) := alojar s2 (filtrarFilasObjVacias dfj)
    (s3, k)
  else
    (s2, j)

/-- Embeds `renombrar_columnas`: `df = df.copy()`, then `rename(inplace=True)` or
the positional `df.columns = ...` assignment on the copy. -/
def renombrar_columnas_prog (s : Store) (i : Nat)
    (mapeo : Option (List (String × String))) : Store × Nat :=
  let (s1, j) := alojar s (leerF s i)
  let s2 := mutar s1 j (renombrar_columnas (leerF s1 j) mapeo)
  (s2, j)

/-- Embeds `convertir_columnas_monetarias`: `df = df.copy()`, then the per-column
conversion loop on the copy. -/
def convertir_columnas_monetarias_prog (s : Store) (i : Nat) : Store × Nat :=
  let (s1, j) := alojar s (leerF s i)
  let s2 := mutar s1 j (convertir_columnas_monetarias (leerF s1 j))
  (s2, j)

/-- Embeds `convertir_columnas_fecha`: `df = df.copy()`, then the per-column
conversion loop on the copy. -/
def convertir_columnas_fecha_prog (s : Store) (i : Nat) : Store × Nat :=
  let (s1, j) := alojar s (leerF s i)
  let s2 := mutar s1 j (convertir_columnas_fecha (leerF s1 j))
  (s2, j)

/-- Embeds `limpiar_dataframe`: the five-stage pipeline, each stage rebinding the
local `df` to the frame returned by the previous one. -/
def limpiar_dataframe_prog (s : Store) (i : Nat)
    (mapeo : Option (List (String × String))) : Store × Nat :=
  let (s1, i1) := normalizar_strings_prog s i
  let (s2, i2) := eliminar_filas_vacias_prog s1 i1
  let (s3, i3) := renombrar_columnas_prog s2 i2 mapeo
  let (s4, i4) := convertir_columnas_monetarias_prog s3 i3
  let (s5, i5) := convertir_columnas_fecha_prog s4 i4
  (s5, i5)

/-! ### `exceptions.py` — the error taxonomy

One constructor per exception class of the `SecopError` hierarchy, each
carrying its message (the structured `context` dict is reduced to the
message text). -/

inductive SecopErr where
  | timeoutErr (msg : String) : SecopErr
  | recaptcha (msg : String) : SecopErr
  | iframeErr (msg : String) : SecopErr
  | emptyTable (msg : String) : SecopErr
  | formErr (msg : String) : SecopErr
  | pagination (msg : String) : SecopErr
  | parsing (msg : String) : SecopErr
  | export (msg : String) : SecopErr
deriving DecidableEq, Repr

/-- The exception classes of `exceptions.py`, without their payload. -/
inductive ClaseErr where
  | timeoutErr | recaptcha | iframeErr | emptyTable
  | formErr | pagination | parsing | export
deriving DecidableEq, Repr

/-- The class of an error value (`type(e)` in Python). -/
def claseDe : SecopErr → ClaseErr
  | SecopErr.timeoutErr _ => ClaseErr.timeoutErr
  | SecopErr.recaptcha _ => ClaseErr.recaptcha
  | SecopErr.iframeErr _ => ClaseErr.iframeErr
  | SecopErr.emptyTable _ => ClaseErr.emptyTable
  | SecopErr.formErr _ => ClaseErr.formErr
  | SecopErr.pagination _ => ClaseErr.pagination
  | SecopErr.parsing _ => ClaseErr.parsing
  | SecopErr.export _ => ClaseErr.export

/-- Decidable equality of `Except` results, for evaluating the parser and
orchestrator on concrete inputs. -/
instance exceptDecEq {ε α : Type} [DecidableEq ε] [DecidableEq α] :
    DecidableEq (Except ε α)
  | Except.ok a, Except.ok b =>
    if h : a = b then isTrue (by rw [h])
    else isFalse (fun he => by cases he; exact h rfl)
  | Except.ok _, Except.error _ => isFalse (fun he => by cases he)
  | Except.error _, Except.ok _ => isFalse (fun he => by cases he)
  | Except.error e, Except.error f =>
    if h : e = f then isTrue (by rw [h])
    else isFalse (fun he => by cases he; exact h rfl)

/-! ### `parser.py` — the DOM and BeautifulSoup primitives

The text-to-tree step of `BeautifulSoup(html, "html.parser")` is
abstracted: `parsear_pagina` here receives the parsed document tree.
`find`/`find_all` search the descendants of a node in document order. -/

/-- A parsed HTML node: text, or an element with tag, attributes and
children. -/
inductive Node where
  | text (s : String) : Node
  | elem (tag : String) (attrs : List (String × String)) (children : List Node) : Node

mutual
/-- The subtree of a node in document order (the node first). -/
def Node.preorder : Node → List Node
  | Node.text s => [Node.text s]
  | Node.elem t a cs => Node.elem t a cs :: preorderLista cs
/-- Document-order flattening of a forest. -/
def preorderLista : List Node → List Node
  | [] => []
  | n :: ns => n.preorder ++ preorderLista ns
end

/-- The strict descendants of a node (what `find_all` searches). -/
def Node.descendientes (n : Node) : List Node :=
  match n with
  | Node.text _ => []
  | Node.elem _ _ cs => preorderLista cs

/-- Is `n` an element with the given tag? -/
def esTag (tag : String) (n : Node) : Bool :=
  match n with
  | Node.elem t _ _ => t == tag
  | Node.text _ => false

/-- First value of an attribute, if present. -/
def atributo (n : Node) (k : String) : Option String :=
  match n with
  | Node.elem _ attrs _ => (attrs.find? (fun p => p.1 == k)).map (fun p => p.2)
  | Node.text _ => none

/-- BeautifulSoup multi-valued `class` matching: the `class` attribute,
split on whitespace, contains `c`. -/
def tieneClase (n : Node) (c : String) : Bool :=
  match atributo n "class" with
  | some v => (splitOnChar ' ' v.data).any (fun p => String.mk p == c)
  | none => false

/-- Embeds `tag.find_all(name)`: descendant elements with the tag, in document
order. -/
def buscarTodos (n : Node) (tag : String) : List Node :=
  n.descendientes.filter (esTag tag)

/-- Embeds `tag.find(name)`. -/
def buscarUno (n : Node) (tag : String) : Option Node :=
  (buscarTodos n tag).head?

/-- Embeds `get_text(strip=True)`: the text descendants (and the node itself when
it is text), each stripped, concatenated. -/
def textoDe (n : Node) : String :=
  String.mk ((n.preorder.filterMap (fun m =>
    match m with
    | Node.text s => some (stripChars s.data)
    | _ => none)).foldr (· ++ ·) [])

/-- Python `max(xs, key=f)`: the first maximiser (ties keep the earlier
element). -/
def maxPorClave (f : Node → Nat) : List Node → Option Node
  | [] => none
  | x :: xs => some (xs.foldl (fun mejor y => if f y > f mejor then y else mejor) x)

/-! ### `parser.py` — table discovery, headers, rows -/

/-- Embeds `parser._encontrar_tabla`: (1) the table with CSS class
`tbl_resulados`, (2) the table with most `<tr>` rows when that is more
than one, (3) the first table, (4) `None`. -/
def _encontrar_tabla (soup : Node) : Option Node :=
  let porClase := (soup.descendientes.filter
    (fun n => esTag "table" n && tieneClase n "tbl_resulados")).head?
  match porClase with
  | some t => some t
  | none =>
    let tablas := buscarTodos soup "table"
    match maxPorClave (fun t => (buscarTodos t "tr").length) tablas with
    | some mayor =>
      if (buscarTodos mayor "tr").length > 1 then some mayor
      else tablas.head?
    | none => tablas.head?

/-- Characters kept by the header-normalization regex
`[^a-záéíóúñü0-9]+` (after lowercasing). -/
def charCabeceraPermitido (c : Char) : Bool :=
  (97 ≤ c.toNat && c.toNat ≤ 122) || c.isDigit ||
    c = 'á' || c = 'é' || c = 'í' || c = 'ó' || c = 'ú' || c = 'ñ' || c = 'ü'

/-- Normalize one header: lowercase, strip, disallowed runs to `_`, strip
leading/trailing `_`. -/
def normalizarCabecera (h : String) : String :=
  let cs := stripChars (h.data.map pyLowerChar)
  let cs := colapsa1Aux (fun c => !charCabeceraPermitido c) '_' false cs
  String.mk (((cs.dropWhile (fun c => c = '_')).reverse.dropWhile
    (fun c => c = '_')).reverse)

/-- Embeds `parser._extraer_encabezados`: `<thead><th>` first, else the `<th>` of
the first `<tr>`; normalized. -/
def _extraer_encabezados (tabla : Node) : List String :=
  let deThead :=
    match buscarUno tabla "thead" with
    | some th => (buscarTodos th "th").map textoDe
    | none => []
  let encabezados :=
    if !deThead.isEmpty then deThead
    else
      match (buscarTodos tabla "tr").head? with
      | some fila => (buscarTodos fila "th").map textoDe
      | none => []
  encabezados.map normalizarCabecera

/-- Embeds `parser._extraer_filas`: the `<td>` texts of each `<tr>` under
`<tbody>` (or the table), skipping header-only and all-blank rows. -/
def _extraer_filas (tabla : Node) : List (List String) :=
  let contenedor := (buscarUno tabla "tbody").getD tabla
  (buscarTodos contenedor "tr").filterMap (fun tr =>
    let celdas := buscarTodos tr "td"
    if celdas.isEmpty then none
    else
      let fila := celdas.map textoDe
      if fila.all (fun c => c == "") then none else some fila)

/-- Embeds `urllib.parse.urljoin`, restricted to the cases this code produces:
absolute URLs pass through, relative ones are appended to the base. -/
def urljoinModelo (base href : String) : String :=
  if "http".data.isPrefixOf href.data then href else base ++ href

/-- Embeds `parser._extraer_urls_detalle_html`: for each `<tr>` that has cells,
the first `<a href>` whose href contains `detalleProceso` or (lowercased)
`detalle`, joined onto the base URL. -/
def _extraer_urls_detalle_html (tabla : Node) : List (Option String) :=
  let contenedor := (buscarUno tabla "tbody").getD tabla
  (buscarTodos contenedor "tr").filterMap (fun tr =>
    let celdas := buscarTodos tr "td"
    if celdas.isEmpty then none
    else
      some (((tr.descendientes.filter (fun n =>
          esTag "a" n && (atributo n "href").isSome)).filterMap (fun a =>
        match atributo a "href" with
        | some href =>
          if hayInfijo "detalleProceso".data href.data ||
             hayInfijo "detalle".data (pyLower href).data then
            some (urljoinModelo SECOP_BASE_URL href)
          else none
        | none => none)).head?))

/-- Embeds `parser.parsear_pagina`: one results page to a raw `DataFrame`.
Raises (`Except.error`) a `SecopParsingError` when no table is found and a
`SecopParsingError` with a different message when the table has no data
rows. -/
def parsear_pagina (soup : Node) : Except SecopErr DataFrame :=
  match _encontrar_tabla soup with
  | none => Except.error (SecopErr.parsing
      "No se encontró tabla de resultados en el HTML.")
  | some tabla =>
    let encabezados := _extraer_encabezados tabla
    let filas := _extraer_filas tabla
    if filas.isEmpty then
      Except.error (SecopErr.parsing "Tabla encontrada pero sin filas de datos.")
    else
      let numCols := (filas.headD []).length
      let columnas :=
        if !encabezados.isEmpty && encabezados.length = numCols then encabezados
        else if numCols ≤ COLUMNAS_RESULTADO.length then
          COLUMNAS_RESULTADO.take numCols
        else
          (List.range numCols).map (fun i => "col_" ++ toString i)
      let filasNorm := filas.map (fun f =>
        if f.length < numCols then f ++ List.replicate (numCols - f.length) ""
        else f.take numCols)
      let urls := _extraer_urls_detalle_html tabla
      let filasCeldas :=
        if !urls.isEmpty && urls.length = filasNorm.length then
          (filasNorm.zip urls).map (fun p =>
            p.1.map Cell.str ++
              [match p.2 with | some u => Cell.str u | none => Cell.null])
        else
          filasNorm.map (fun f => f.map Cell.str ++ [Cell.null])
      Except.ok ⟨columnas ++ ["url_detalle"],
        List.replicate (numCols + 1) DType.obj, filasCeldas⟩

/-! ### `parser.py` — multi-page consolidation -/

/-- Embeds `pd.concat([a, b], ignore_index=True)` for frames with identical column
lists (the only case this pipeline produces): rows are stacked; a column
keeps its dtype when both frames agree on it and degrades to object
otherwise. -/
def concatFrames (a b : DataFrame) : DataFrame :=
  ⟨a.cols,
   List.zipWith (fun d1 d2 => if d1 = d2 then d1 else DType.obj) a.dtypes b.dtypes,
   a.rows ++ b.rows⟩

/-- Embeds `pd.concat(dataframes, ignore_index=True)` over a non-empty list. -/
def concatTodos : List DataFrame → DataFrame
  | [] => dfVacio
  | d :: ds => ds.foldl concatFrames d

/-- Embeds `drop_duplicates()` keeping the first occurrence of each value. -/
def dedupPrimero (vistos : List (List Cell)) : List (List Cell) → List (List Cell)
  | [] => []
  | r :: rs =>
    if r ∈ vistos then dedupPrimero vistos rs
    else r :: dedupPrimero (r :: vistos) rs

/-- Embeds `df.drop_duplicates(inplace=True)` on all columns (`reset_index` not
modelled). -/
def dropDuplicatesDf (df : DataFrame) : DataFrame :=
  { df with rows := dedupPrimero [] df.rows }

/-- Embeds `parser.parsear_todas_paginas`: parse each page independently, skip
pages that raise a parsing error, raise `SecopEmptyTableError` when there
are no pages or no page produced data, then concatenate and drop exact
duplicate rows. -/
def parsear_todas_paginas (paginasHtml : List Node) : Except SecopErr DataFrame :=
  if paginasHtml.isEmpty then
    Except.error (SecopErr.emptyTable "No se recibieron páginas HTML para parsear.")
  else
    let dataframes := paginasHtml.filterMap (fun p => (parsear_pagina p).toOption)
    let errores := paginasHtml.length - dataframes.length
    if dataframes.isEmpty then
      Except.error (SecopErr.emptyTable
        ("Ninguna de las " ++ toString paginasHtml.length ++
         " páginas produjo datos (" ++ toString errores ++ " errores de parsing)."))
    else
      Except.ok (dropDuplicatesDf (concatTodos dataframes))

/-! ### `api_scraper.py` — filter translation and the SoQL where-clause -/

/-- A single quote character (`'`). -/
def comilla : String := String.mk [Char.ofNat 39]

/-- Embeds `'x'` — a SoQL string literal. -/
def citar (s : String) : String := comilla ++ s ++ comilla

/-- Embeds `api_scraper.MODALIDAD_MAP`. -/
def MODALIDAD_MAP : List (String × String) :=
  [("1", "Licitación pública"),
   ("11", "Selección Abreviada de Menor Cuantía"),
   ("9", "Selección abreviada subasta inversa"),
   ("13", "Mínima cuantía"),
   ("17", "Selección Abreviada servicios de Salud"),
   ("10", "Concurso de méritos abierto"),
   ("12", "Contratación directa"),
   ("4", "Contratación régimen especial"),
   ("2", "Contratación Directa (con ofertas)")]

/-- Embeds `api_scraper.DEPARTAMENTO_MAP`. -/
def DEPARTAMENTO_MAP : List (String × String) :=
  [("91000", "Amazonas"), ("5000", "Antioquia"), ("81000", "Arauca"),
   ("8000", "Atlántico"), ("1100", "Bogotá D.C."), ("1300", "Bolívar"),
   ("15000", "Boyacá"), ("17000", "Caldas"), ("1800", "Caquetá"),
   ("85000", "Casanare"), ("19000", "Cauca"), ("20000", "Cesar"),
   ("27000", "Chocó"), ("23000", "Córdoba"), ("25000", "Cundinamarca"),
   ("94000", "Guainía"), ("95000", "Guaviare"), ("41000", "Huila"),
   ("44000", "La Guajira"), ("47000", "Magdalena"), ("50000", "Meta"),
   ("52000", "Nariño"), ("54000", "Norte De Santander"),
   ("86000", "Putumayo"), ("63000", "Quindío"), ("66000", "Risaralda"),
   ("88000", "San Andrés, Providencia y Santa Catalina"),
   ("668000", "Santander"), ("70000", "Sucre"), ("73000", "Tolima"),
   ("76000", "Valle del Cauca"), ("97000", "Vaupés"), ("99000", "Vichada")]

/-- Embeds `api_scraper.ESTADO_CELEBRADO_EQUIVALENTES`. -/
def ESTADO_CELEBRADO_EQUIVALENTES : List String :=
  ["Cerrado", "terminado", "En ejecución", "Modificado", "Prorrogado", "cedido"]

/-- The `modalidad` argument of `_construir_where`: the source accepts a
single value or a list/tuple of values. -/
inductive ModalidadArg where
  | una (s : String) : ModalidadArg
  | varias (l : List String) : ModalidadArg
deriving DecidableEq, Repr

/-- Python truthiness of an optional string (`if x:`). -/
def presente : Option String → Bool
  | none => false
  | some s => s ≠ ""

/-- Embeds `dd/MM/yyyy` to `yyyy-MM-ddThh:mm:ss`, as `_construir_where` converts
dates; `none` when the value does not split into three parts. -/
def fechaIso (v : String) (horaSufijo : String) : Option String :=
  match splitOnChar '/' v.data with
  | [d, m, y] =>
    some (String.mk y ++ "-" ++ String.mk m ++ "-" ++ String.mk d ++ horaSufijo)
  | _ => none

/-- Embeds `api_scraper._construir_where`: the SoQL `$where` clause.  Department
and modality codes are translated through the maps (unknown values pass
through); a list-valued modality becomes an `in(...)` clause; a status
equal to `celebrado` case-insensitively expands to the fixed equivalence
set; the keyword becomes a case-insensitive `like`; dates in `dd/MM/yyyy`
become ISO bounds on `fecha_de_inicio_del_contrato`. -/
def _construir_where (departamento : Option String)
    (modalidad : Option ModalidadArg) (estado : Option String)
    (palabra_clave : Option String) (fecha_inicio : Option String)
    (fecha_fin : Option String) : String :=
  let condDepto : List String :=
    match departamento with
    | some d =>
      if d ≠ "" then ["departamento=" ++ citar ((buscarMapa DEPARTAMENTO_MAP d).getD d)]
      else []
    | none => []
  let condMod : List String :=
    match modalidad with
    | some (ModalidadArg.una m) =>
      if m ≠ "" then
        ["modalidad_de_contratacion=" ++ citar ((buscarMapa MODALIDAD_MAP m).getD m)]
      else []
    | some (ModalidadArg.varias l) =>
      if !l.isEmpty then
        ["modalidad_de_contratacion in(" ++
          String.intercalate ","
            (l.map (fun m => citar ((buscarMapa MODALIDAD_MAP m).getD m))) ++ ")"]
      else []
    | none => []
  let condEstado : List String :=
    match estado with
    | some e =>
      if e ≠ "" then
        if pyLower e = "celebrado" then
          ["estado_contrato in(" ++
            String.intercalate "," (ESTADO_CELEBRADO_EQUIVALENTES.map citar) ++ ")"]
        else ["estado_contrato=" ++ citar e]
      else []
    | none => []
  let condPalabra : List String :=
    match palabra_clave with
    | some p =>
      if p ≠ "" then
        ["upper(objeto_del_contrato) like upper(" ++ citar ("%" ++ p ++ "%") ++ ")"]
      else []
    | none => []
  let condFechaIni : List String :=
    match fecha_inicio with
    | some v =>
      if v ≠ "" then
        match fechaIso v "T00:00:00" with
        | some iso => ["fecha_de_inicio_del_contrato >= " ++ citar iso]
        | none => []
      else []
    | none => []
  let condFechaFin : List String :=
    match fecha_fin with
    | some v =>
      if v ≠ "" then
        match fechaIso v "T23:59:59" with
        | some iso => ["fecha_de_inicio_del_contrato <= " ++ citar iso]
        | none => []
      else []
    | none => []
  String.intercalate " AND "
    (condDepto ++ condMod ++ condEstado ++ condPalabra ++ condFechaIni ++ condFechaFin)

/-! ### `detail_scraper.py` — the historical store merge

File loading and persistence are abstracted: the function takes the frame
read from the historical store (an empty `DataFrame` when the file does not
exist) and returns the frame that is written back. -/

/-- Embeds `keep="last"` deduplication by a key projection: a row survives exactly
when no later row has the same key value (surviving rows keep their order). -/
def dedupUltimoPor (f : List Cell → Cell) : List (List Cell) → List (List Cell)
  | [] => []
  | r :: rs =>
    if rs.any (fun q => f q == f r) then dedupUltimoPor f rs
    else r :: dedupUltimoPor f rs

/-- The cell of column `c` in row `r` of frame `df` (null when absent). -/
def celdaEn (df : DataFrame) (r : List Cell) (c : String) : Cell :=
  if df.cols.contains c then r.getD (idxCol c df.cols) Cell.null else Cell.null

/-- Embeds `pd.concat([historica, nuevos], ignore_index=True)` for the historical
merge: equal column lists stack directly; an empty historical frame yields
the new frame; otherwise columns are aligned by name with null fill. -/
def concatHist (a b : DataFrame) : DataFrame :=
  if a.cols.isEmpty && a.rows.isEmpty then b
  else if a.cols = b.cols then concatFrames a b
  else
    let cols := a.cols ++ b.cols.filter (fun c => !a.cols.contains c)
    ⟨cols,
     cols.map (fun _ => DType.obj),
     a.rows.map (fun r => cols.map (celdaEn a r)) ++
       b.rows.map (fun r => cols.map (celdaEn b r))⟩

/-- Embeds `detail_scraper.actualizar_base_historica`: concatenate the new
records onto the historical store and, when the key column is present,
deduplicate by the key keeping the most recently appended record. -/
def actualizar_base_historica (historica nuevos : DataFrame)
    (columna_clave : String) : DataFrame :=
  let combinado := concatHist historica nuevos
  if combinado.cols.contains columna_clave then
    let clave := fun (r : List Cell) => r.getD (idxCol columna_clave combinado.cols) Cell.null
    { combinado with rows := dedupUltimoPor clave combinado.rows }
  else combinado

/-! ### `main.py` — the search-mode orchestrator

`ejecutar_modo_busqueda` is modelled on the outcomes of its two effectful
collaborators: `primario` is the result of the Selenium path *after*
parsing and cleaning (`Except.error` when anything in the `try` block
raised), `api` is the result of `consultar_desde_params` followed by
cleaning.  CSV export and the optional historical update are outside the
model.  Note a Python 3 semantics point the model must reflect: the name
bound by `except Exception as exc_selenium:` is deleted when that `except`
block ends, so the later f-string
`f"... Selenium: {exc_selenium} ..."` in the API `except` block *always*
raises `NameError` — the combined-failure message and the `return 1` after
it are unreachable. -/

/-- How a run of `ejecutar_modo_busqueda` ends. -/
inductive RunTermination where
  | normalExit (code : Nat) : RunTermination
  | uncaughtException (desc : String) : RunTermination
deriving DecidableEq, Repr

/-- Observable outcome of one search-mode run. -/
structure RunResult (α : Type) where
  term : RunTermination
  fallbackCalls : Nat
  reportedCauses : Option (String × String)
  exported : List α
deriving DecidableEq, Repr

/-- Embeds `main.ejecutar_modo_busqueda`. -/
def ejecutar_modo_busqueda {α : Type} (primario : Except String (List α))
    (api : Except String (List α)) : RunResult α :=
  let dfLimpio : Option (List α) :=
    match primario with
    | Except.ok filas => some filas
    | Except.error _ => none
  match dfLimpio with
  | some (r :: rs) =>
    -- df_limpio is neither None nor empty: export, return 0; no fallback
    ⟨RunTermination.normalExit 0, 0, none, r :: rs⟩
  | _ =>
    -- `if df_limpio is None or df_limpio.empty:` — the API fallback block
    match api with
    | Except.ok [] =>
      -- `print("⚠️ Sin resultados en la API."); return 0`
      ⟨RunTermination.normalExit 0, 1, none, []⟩
    | Except.ok filas =>
      ⟨RunTermination.normalExit 0, 1, none, filas⟩
    | Except.error _ =>
      -- the combined-failure f-string references the deleted name
      -- `exc_selenium`: NameError propagates out of the function
      ⟨RunTermination.uncaughtException
        "NameError: name exc_selenium is not defined", 1, none, []⟩

/-! ### Concrete inputs used by the claim witnesses -/

/-- The claim's notion of a blank-or-null field (after string
normalization both variants exist as cells). -/
def celdaEnBlanco : Cell → Bool
  | Cell.null => true
  | Cell.str s => pyStrip s == ""
  | _ => false

/-- A results page: the portal table with a header row and one data row. -/
def paginaEjemplo : Node :=
  Node.elem "html" [] [Node.elem "table" [("class", "tbl_resulados")]
    [Node.elem "tr" [] [Node.elem "th" [] [Node.text "Numero"]],
     Node.elem "tr" [] [Node.elem "td" [] [Node.text "P-001"],
                        Node.elem "td" [] [Node.text "Alcaldía"]]]]

/-- The frame `parsear_pagina` extracts from `paginaEjemplo`. -/
def dfEjemplo : DataFrame :=
  ⟨["numero_proceso", "entidad", "url_detalle"],
   [DType.obj, DType.obj, DType.obj],
   [[Cell.str "P-001", Cell.str "Alcaldía", Cell.null]]⟩

/-- A page with no table at all. -/
def paginaSinTabla : Node :=
  Node.elem "html" [] [Node.elem "p" [] [Node.text "sin resultados"]]

/-- A page whose table has a header but no data rows. -/
def paginaTablaVacia : Node :=
  Node.elem "html" [] [Node.elem "table" [("class", "tbl_resulados")]
    [Node.elem "tr" [] [Node.elem "th" [] [Node.text "Numero"]]]]

/-- A small historical store. -/
def histBase : DataFrame :=
  ⟨["numero_proceso", "valor"], [DType.obj, DType.obj],
   [[Cell.str "P1", Cell.str "a"], [Cell.str "P2", Cell.str "b"]]⟩

/-- A new snapshot sharing key `P2` with a different payload. -/
def histNuevo : DataFrame :=
  ⟨["numero_proceso", "valor"], [DType.obj, DType.obj],
   [[Cell.str "P2", Cell.str "B"], [Cell.str "P3", Cell.str "c"]]⟩

/-- A two-column all-object frame with one blank and one non-blank row. -/
def dfNormalizado : DataFrame :=
  ⟨["numero_proceso", "entidad"], [DType.obj, DType.obj],
   [[Cell.str "", Cell.str ""], [Cell.str "P-9", Cell.str ""]]⟩

/-! ## Claim theorems -/

/-- C1: for every search run, a primary-path error means the REST fallback
is invoked exactly once; a primary success with zero rows after cleaning
still invokes the fallback exactly once; a primary success with at least
one row never invokes the fallback. -/
theorem C1_politica_fallback {α : Type} :
    (∀ (e : String) (api : Except String (List α)),
      (ejecutar_modo_busqueda (Except.error e) api).fallbackCalls = 1)
    ∧ (∀ api : Except String (List α),
      (ejecutar_modo_busqueda (Except.ok ([] : List α)) api).fallbackCalls = 1)
    ∧ (∀ (filas : List α) (api : Except String (List α)), filas ≠ [] →
      (ejecutar_modo_busqueda (Except.ok filas) api).fallbackCalls = 0) := by
  refine ⟨fun e api => ?_, fun api => ?_, fun filas api hne => ?_⟩
  · cases api with
    | ok l => cases l <;> rfl
    | error _ => rfl
  · cases api with
    | ok l => cases l <;> rfl
    | error _ => rfl
  · cases filas with
    | nil => exact absurd rfl hne
    | cons r rs => rfl

/-- C1 witness at concrete inputs. -/
theorem C1_politica_fallback_witness :
    (ejecutar_modo_busqueda (Except.error "WebDriverException")
      (Except.ok [(1 : Nat)])).fallbackCalls = 1
    ∧ (ejecutar_modo_busqueda (Except.ok ([] : List Nat))
      (Except.error "HTTPError")).fallbackCalls = 1
    ∧ (ejecutar_modo_busqueda (Except.ok [(2 : Nat)])
      (Except.ok [(3 : Nat)])).fallbackCalls = 0 :=
  ⟨C1_politica_fallback.1 "WebDriverException" (Except.ok [(1 : Nat)]),
   C1_politica_fallback.2.1 (Except.error "HTTPError"),
   C1_politica_fallback.2.2 [(2 : Nat)] (Except.ok [(3 : Nat)]) (by decide)⟩

/-- C2 (code bug): when the primary path raised and the fallback also
raises, the combined-failure report is never produced — the f-string
references `exc_selenium`, a name Python deleted when its `except` clause
ended, so the run dies with an unhandled `NameError` and no combined
report; and when the fallback merely returns an empty result the run
terminates with success code 0 instead of a failure. -/
theorem C2_fallo_combinado_codigo :
    (ejecutar_modo_busqueda
      (Except.error "WebDriverException: 403" : Except String (List Nat))
      (Except.error "HTTPError: timeout")).term =
      RunTermination.uncaughtException "NameError: name exc_selenium is not defined"
    ∧ (ejecutar_modo_busqueda
      (Except.error "WebDriverException: 403" : Except String (List Nat))
      (Except.error "HTTPError: timeout")).reportedCauses = none
    ∧ (ejecutar_modo_busqueda
      (Except.error "WebDriverException: 403" : Except String (List Nat))
      (Except.ok [])).term = RunTermination.normalExit 0
    ∧ (ejecutar_modo_busqueda
      (Except.ok ([] : List Nat)) (Except.ok [])).term =
      RunTermination.normalExit 0 := by
  decide

/-- C8: the fallback query translates department code `668000` to
"Santander" and modality code `13` to "Mínima cuantía", and a status equal
to "Celebrado" case-insensitively expands to the fixed six-value
equivalence set in the `in(...)` clause. -/
theorem C8_traduccion_filtros :
    buscarMapa DEPARTAMENTO_MAP "668000" = some "Santander"
    ∧ buscarMapa MODALIDAD_MAP "13" = some "Mínima cuantía"
    ∧ _construir_where (some "668000") (some (ModalidadArg.una "13"))
        (some "Celebrado") none none none =
      "departamento=" ++ citar "Santander" ++
      " AND modalidad_de_contratacion=" ++ citar "Mínima cuantía" ++
      " AND estado_contrato in(" ++ citar "Cerrado" ++ "," ++
      citar "terminado" ++ "," ++ citar "En ejecución" ++ "," ++
      citar "Modificado" ++ "," ++ citar "Prorrogado" ++ "," ++
      citar "cedido" ++ ")"
    ∧ (∀ est : String, pyLower est = "celebrado" →
      _construir_where none none (some est) none none none =
        "estado_contrato in(" ++ citar "Cerrado" ++ "," ++
        citar "terminado" ++ "," ++ citar "En ejecución" ++ "," ++
        citar "Modificado" ++ "," ++ citar "Prorrogado" ++ "," ++
        citar "cedido" ++ ")") := by
  refine ⟨by decide, by decide, ?_, fun est hest => ?_⟩
  · set_option maxRecDepth 8000 in decide
  · have hne : est ≠ "" := by
      intro he
      rw [he] at hest
      exact absurd hest (by decide)
    unfold _construir_where
    dsimp only
    rw [if_pos hne, if_pos hest]
    set_option maxRecDepth 8000 in decide

/-! ### Lemmas for the currency claims -/

theorem mem_of_dropWhile {p : Char → Bool} {c : Char} :
    ∀ {l : List Char}, c ∈ l.dropWhile p → c ∈ l := by
  intro l
  induction l with
  | nil => intro h; simp at h
  | cons a t ih =>
    intro h
    rw [List.dropWhile_cons] at h
    by_cases hp : p a = true
    · simp only [hp, if_true] at h
      exact List.mem_cons_of_mem a (ih h)
    · simp only [hp, if_false] at h
      exact h

theorem mem_stripChars {c : Char} {cs : List Char} (h : c ∈ stripChars cs) :
    c ∈ cs := by
  unfold stripChars at h
  rw [List.mem_reverse] at h
  have h2 := mem_of_dropWhile h
  rw [List.mem_reverse] at h2
  exact mem_of_dropWhile h2

theorem mem_preprocMoneda {c : Char} {v : String} (h : c ∈ preprocMoneda v) :
    c ∈ v.data := by
  unfold preprocMoneda at h
  exact mem_stripChars (mem_of_dropWhile (List.mem_of_mem_filter h))

theorem pyFloatCuerpo_sin_digitos :
    ∀ {cs : List Char}, (∀ c ∈ cs, c.isDigit = false) → pyFloatCuerpo cs = none := by
  intro cs h
  unfold pyFloatCuerpo
  cases cs with
  | nil => rfl
  | cons a t =>
    have ha : a.isDigit = false := h a (List.mem_cons_self a t)
    rw [List.takeWhile_cons, List.dropWhile_cons, ha]
    simp only [Bool.false_eq_true, if_false]
    by_cases hdot : a = '.'
    · subst hdot
      cases t with
      | nil => rfl
      | cons b t' =>
        have hb : b.isDigit = false := h b (List.mem_cons_of_mem _ (List.mem_cons_self b t'))
        simp [List.all_cons, hb]
    · simp [hdot]

theorem pyFloatChars_sin_digitos {cs : List Char}
    (h : ∀ c ∈ cs, c.isDigit = false) : pyFloatChars cs = none := by
  unfold pyFloatChars
  cases cs with
  | nil => rfl
  | cons a t =>
    have ht : ∀ c ∈ t, c.isDigit = false :=
      fun c hc => h c (List.mem_cons_of_mem _ hc)
    by_cases hm : a = '-'
    · simp [hm, pyFloatCuerpo_sin_digitos ht]
    · by_cases hp : a = '+'
      · simp [hm, hp, pyFloatCuerpo_sin_digitos ht]
      · simp [hm, hp, pyFloatCuerpo_sin_digitos h]

theorem splitOnChar_ne_nil (sep : Char) (cs : List Char) :
    splitOnChar sep cs ≠ [] := by
  cases cs with
  | nil => simp [splitOnChar]
  | cons a t =>
    unfold splitOnChar
    by_cases ha : a = sep
    · simp [ha]
    · simp only [ha, if_false]
      cases splitOnChar sep t with
      | nil => simp
      | cons p ps => simp

theorem mem_splitOnChar {sep : Char} :
    ∀ {cs : List Char} {p : List Char}, p ∈ splitOnChar sep cs →
      ∀ {c : Char}, c ∈ p → c ∈ cs := by
  intro cs
  induction cs with
  | nil =>
    intro p hp c hc
    simp [splitOnChar] at hp
    subst hp
    simp at hc
  | cons a t ih =>
    intro p hp c hc
    unfold splitOnChar at hp
    by_cases ha : a = sep
    · simp only [ha, if_true] at hp
      rcases List.mem_cons.1 hp with h1 | h2
      · subst h1; simp at hc
      · exact List.mem_cons_of_mem a (ih h2 hc)
    · simp only [ha, if_false] at hp
      cases hrec : splitOnChar sep t with
      | nil => exact absurd hrec (splitOnChar_ne_nil sep t)
      | cons q qs =>
        rw [hrec] at hp
        rcases List.mem_cons.1 hp with h1 | h2
        · subst h1
          rcases List.mem_cons.1 hc with h3 | h4
          · rw [h3]; exact List.mem_cons_self a t
          · have : q ∈ splitOnChar sep t := by rw [hrec]; exact List.mem_cons_self q qs
            exact List.mem_cons_of_mem a (ih this h4)
        · have : p ∈ splitOnChar sep t := by rw [hrec]; exact List.mem_cons_of_mem q h2
          exact List.mem_cons_of_mem a (ih this hc)

theorem splitOnChar_dos_partes {sep : Char} :
    ∀ {cs : List Char}, sep ∈ cs → 2 ≤ (splitOnChar sep cs).length := by
  intro cs
  induction cs with
  | nil => intro h; simp at h
  | cons a t ih =>
    intro h
    unfold splitOnChar
    by_cases ha : a = sep
    · simp only [ha, if_true, List.length_cons]
      have h1 : 0 < (splitOnChar sep t).length :=
        List.length_pos.2 (splitOnChar_ne_nil sep t)
      omega
    · have hst : sep ∈ t := by
        rcases List.mem_cons.1 h with h1 | h2
        · exact absurd h1.symm ha
        · exact h2
      have h2 := ih hst
      simp only [ha, if_false]
      cases hsp : splitOnChar sep t with
      | nil => exact absurd hsp (splitOnChar_ne_nil sep t)
      | cons q qs =>
        rw [hsp] at h2
        simp only [List.length_cons] at h2 ⊢
        omega

theorem contains_eq_mem {c : Char} {l : List Char} :
    l.contains c = true ↔ c ∈ l :=
  List.elem_iff

theorem mem_foldr_append {c : Char} :
    ∀ {l : List (List Char)}, c ∈ l.foldr (· ++ ·) [] → ∃ p ∈ l, c ∈ p := by
  intro l
  induction l with
  | nil => intro h; simp at h
  | cons a t ih =>
    intro h
    rw [List.foldr_cons, List.mem_append] at h
    rcases h with h1 | h2
    · exact ⟨a, List.mem_cons_self a t, h1⟩
    · rcases ih h2 with ⟨p, hp, hc⟩
      exact ⟨p, List.mem_cons_of_mem a hp, hc⟩

theorem getLastD_mem {l : List (List Char)} (h : l ≠ []) :
    l.getLastD [] ∈ l := by
  induction l with
  | nil => exact absurd rfl h
  | cons a t ih =>
    cases t with
    | nil => simp
    | cons b t' =>
      have := ih (by simp)
      simpa using List.mem_cons_of_mem a this

theorem headD_mem {α : Type} {l : List α} (d : α) (h : l ≠ []) :
    l.headD d ∈ l := by
  cases l with
  | nil => exact absurd rfl h
  | cons a t => simp

/-- Every digit-free currency string converts to `none`. -/
theorem convertir_sin_digitos {v : String}
    (h : ∀ c ∈ v.data, c.isDigit = false) :
    _convertir_moneda_colombiana v = none := by
  have hpre : ∀ c ∈ preprocMoneda v, c.isDigit = false :=
    fun c hc => h c (mem_preprocMoneda hc)
  have hdot : ('.' : Char).isDigit = false := by decide
  unfold _convertir_moneda_colombiana
  split
  · rfl
  split
  · rfl
  dsimp only
  split
  · rfl
  next hnil =>
  have hparts := splitOnChar_ne_nil ',' (preprocMoneda v)
  split
  next hcomma =>
    apply pyFloatChars_sin_digitos
    intro c hc
    rcases List.mem_append.1 hc with h1 | h2
    · exact hpre c
        (mem_splitOnChar (headD_mem [] hparts) (List.mem_of_mem_filter h1))
    · rcases List.mem_cons.1 h2 with h3 | h4
      · rw [h3]; exact hdot
      · have hsep : (',' : Char) ∈ preprocMoneda v := contains_eq_mem.1 hcomma
        have hlen := splitOnChar_dos_partes hsep
        cases hsp : splitOnChar ',' (preprocMoneda v) with
        | nil => exact absurd hsp hparts
        | cons p0 resto =>
          cases resto with
          | nil => rw [hsp] at hlen; simp at hlen
          | cons p1 ps =>
            rw [hsp] at h4
            have hp1 : p1 ∈ splitOnChar ',' (preprocMoneda v) := by
              rw [hsp]
              exact List.mem_cons_of_mem p0 (List.mem_cons_self p1 ps)
            exact hpre c (mem_splitOnChar hp1 (by simpa using h4))
  next hcomma =>
    split
    next hpunto =>
      have hpartsP := splitOnChar_ne_nil '.' (preprocMoneda v)
      split
      · apply pyFloatChars_sin_digitos
        intro c hc
        rcases List.mem_append.1 hc with h1 | h2
        · rcases mem_foldr_append h1 with ⟨p, hp, hcp⟩
          have hp2 : p ∈ splitOnChar '.' (preprocMoneda v) :=
            (List.dropLast_sublist _).subset hp
          exact hpre c (mem_splitOnChar hp2 hcp)
        · rcases List.mem_cons.1 h2 with h3 | h4
          · rw [h3]; exact hdot
          · exact hpre c (mem_splitOnChar (getLastD_mem hpartsP) h4)
      · apply pyFloatChars_sin_digitos
        intro c hc
        exact hpre c (List.mem_of_mem_filter hc)
    next hpunto =>
      exact pyFloatChars_sin_digitos hpre

/-- C3: `$1.234.567.890` normalizes to `1234567890.0`; `$1.234.567,89`
normalizes to `1234567.89`; an empty string and every digit-free
(non-numeric) string normalize to null.  The embedding is total, mirroring
that the source wraps every `float(...)` in `try/except` and never
raises. -/
theorem C3_normalizacion_moneda :
    _convertir_moneda_colombiana "$1.234.567.890" = some ((1234567890 : Nat) : Rat)
    ∧ _convertir_moneda_colombiana "$1.234.567,89" = some (mkRat 123456789 100)
    ∧ _convertir_moneda_colombiana "" = none
    ∧ ∀ s : String, (∀ c ∈ s.data, c.isDigit = false) →
        _convertir_moneda_colombiana s = none :=
  ⟨by decide, by decide, by decide, fun _ h => convertir_sin_digitos h⟩

/-- C3 witness: the universal clause at a concrete non-numeric string. -/
theorem C3_normalizacion_moneda_witness :
    _convertir_moneda_colombiana "no aplica" = none :=
  C3_normalizacion_moneda.2.2.2 "no aplica" (by decide)

/-- C4 counterexample: on `"1,2,3"` the code parses `1.2` (integer part
before the *first* comma, fraction between the first two commas), while
the claim's last-comma rule yields null; the two disagree. -/
theorem C4_contraejemplo_ultima_coma :
    _convertir_moneda_colombiana "1,2,3" = some (mkRat 6 5)
    ∧ reglaUltimaComa "1,2,3".data = none
    ∧ _convertir_moneda_colombiana "1,2,3" ≠ reglaUltimaComa "1,2,3".data := by
  decide

theorem convertir_mon_filas : ∀ (cols : List String) (d : DataFrame),
    ((cols.foldl (fun d col =>
       if col ∈ d.cols then aplicarColumna d col celdaMoneda DType.float64 else d)
       d).rows.length = d.rows.length) := by
  intro cols
  induction cols with
  | nil => intro d; rfl
  | cons c cs ih =>
    intro d
    rw [List.foldl_cons, ih]
    by_cases hc : c ∈ d.cols
    · simp [hc, aplicarColumna]
    · simp [hc]

/-- C4 amended: when the *preprocessed* value contains a comma, the text
before the *first* comma (dots removed) is the integer part and the text
between the first and second commas is the fraction (text after a second
comma is ignored); with only dots, the last group is fractional exactly
when it has at most two characters; unparsable values become null and the
money conversion never drops a row. -/
theorem C4_reglas_separadores :
    (∀ v : String, (preprocMoneda v).contains ',' = true →
      _convertir_moneda_colombiana v = reglaPrimeraComa (preprocMoneda v))
    ∧ (∀ v : String, (preprocMoneda v).contains ',' = false →
        (preprocMoneda v).contains '.' = true →
        _convertir_moneda_colombiana v = reglaPuntos (preprocMoneda v))
    ∧ (∀ df : DataFrame,
        (convertir_columnas_monetarias df).rows.length = df.rows.length)
    ∧ (∀ c : Cell, _convertir_moneda_colombiana (cellToPyStr c) = none →
        celdaMoneda c = Cell.null) := by
  have hvacia : ∀ v : String, v = "" → preprocMoneda v = [] := by
    intro v hv; rw [hv]; rfl
  have hstripvacia : ∀ v : String, stripChars v.data = [] → preprocMoneda v = [] := by
    intro v hv; unfold preprocMoneda; rw [hv]; rfl
  refine ⟨fun v hc => ?_, fun v hc hd => ?_, fun df => ?_, fun c hnone => ?_⟩
  · have hv : ¬ v = "" := by
      intro he; rw [hvacia v he] at hc; exact absurd hc (by decide)
    have hs : ¬ stripChars v.data = [] := by
      intro he; rw [hstripvacia v he] at hc; exact absurd hc (by decide)
    have h2 : ¬ preprocMoneda v = [] := by
      intro he; rw [he] at hc; exact absurd hc (by decide)
    unfold _convertir_moneda_colombiana reglaPrimeraComa
    rw [if_neg hv, if_neg hs]
    dsimp only
    rw [if_neg h2, if_pos hc]
  · have hv : ¬ v = "" := by
      intro he; rw [hvacia v he] at hd; exact absurd hd (by decide)
    have hs : ¬ stripChars v.data = [] := by
      intro he; rw [hstripvacia v he] at hd; exact absurd hd (by decide)
    have h2 : ¬ preprocMoneda v = [] := by
      intro he; rw [he] at hd; exact absurd hd (by decide)
    unfold _convertir_moneda_colombiana reglaPuntos
    rw [if_neg hv, if_neg hs]
    dsimp only
    rw [if_neg h2, if_neg (by rw [hc]; exact Bool.false_ne_true), if_pos hd]
  · unfold convertir_columnas_monetarias
    exact convertir_mon_filas COLUMNAS_MONETARIAS df
  · unfold celdaMoneda
    rw [hnone]

/-- C4 amended witness at concrete inputs. -/
theorem C4_reglas_separadores_witness :
    _convertir_moneda_colombiana "$1.234.567,89" =
      reglaPrimeraComa (preprocMoneda "$1.234.567,89")
    ∧ _convertir_moneda_colombiana "$1.234.567.890" =
      reglaPuntos (preprocMoneda "$1.234.567.890")
    ∧ celdaMoneda (Cell.str "abc") = Cell.null :=
  ⟨C4_reglas_separadores.1 "$1.234.567,89" (by decide),
   C4_reglas_separadores.2.1 "$1.234.567.890" (by decide) (by decide),
   C4_reglas_separadores.2.2.2 (Cell.str "abc") (by decide)⟩

/-- C8 witness at a concrete mixed-case status. -/
theorem C8_traduccion_filtros_witness :
    _construir_where none none (some "CELEBRADO") none none none =
      "estado_contrato in(" ++ citar "Cerrado" ++ "," ++
      citar "terminado" ++ "," ++ citar "En ejecución" ++ "," ++
      citar "Modificado" ++ "," ++ citar "Prorrogado" ++ "," ++
      citar "cedido" ++ ")" :=
  C8_traduccion_filtros.2.2.2 "CELEBRADO" (by decide)

/-! ### Lemmas for consolidation and the parser claims -/

theorem zipWith_dtype_self : ∀ l : List DType,
    List.zipWith (fun d1 d2 => if d1 = d2 then d1 else DType.obj) l l = l := by
  intro l
  induction l with
  | nil => rfl
  | cons a t ih => simp [ih]

theorem dedupPrimero_todo_visto : ∀ (l vistos : List (List Cell)),
    (∀ x ∈ l, x ∈ vistos) → dedupPrimero vistos l = [] := by
  intro l
  induction l with
  | nil => intro vistos _; rfl
  | cons r rs ih =>
    intro vistos h
    unfold dedupPrimero
    rw [if_pos (h r (List.mem_cons_self r rs))]
    exact ih vistos (fun x hx => h x (List.mem_cons_of_mem r hx))

theorem dedupPrimero_append : ∀ (l1 l2 vistos : List (List Cell)),
    (∀ x ∈ l2, x ∈ l1 ∨ x ∈ vistos) →
    dedupPrimero vistos (l1 ++ l2) = dedupPrimero vistos l1 := by
  intro l1
  induction l1 with
  | nil =>
    intro l2 vistos h
    simp only [List.nil_append]
    refine dedupPrimero_todo_visto l2 vistos (fun x hx => ?_)
    rcases h x hx with h1 | h2
    · simp at h1
    · exact h2
  | cons a t ih =>
    intro l2 vistos h
    simp only [List.cons_append]
    unfold dedupPrimero
    by_cases ha : a ∈ vistos
    · rw [if_pos ha, if_pos ha]
      refine ih l2 vistos (fun x hx => ?_)
      rcases h x hx with h1 | h2
      · rcases List.mem_cons.1 h1 with h3 | h4
        · exact Or.inr (h3 ▸ ha)
        · exact Or.inl h4
      · exact Or.inr h2
    · rw [if_neg ha, if_neg ha]
      congr 1
      refine ih l2 (a :: vistos) (fun x hx => ?_)
      rcases h x hx with h1 | h2
      · rcases List.mem_cons.1 h1 with h3 | h4
        · exact Or.inr (h3 ▸ List.mem_cons_self a vistos)
        · exact Or.inl h4
      · exact Or.inr (List.mem_cons_of_mem a h2)

theorem dropDup_concat_self (df : DataFrame) :
    dropDuplicatesDf (concatFrames df df) = dropDuplicatesDf df := by
  have h1 := zipWith_dtype_self df.dtypes
  have h2 := dedupPrimero_append df.rows df.rows [] (fun x hx => Or.inl hx)
  simp [dropDuplicatesDf, concatFrames, h1, h2]

/-- C5 counterexample: a page with no table and a page whose table has no
data rows both raise the *same* exception class, `SecopParsingError`
(distinguished only by the message); the empty-table case does not raise
the distinct `SecopEmptyTableError` of the taxonomy. -/
theorem C5_contraejemplo_clase_error :
    parsear_pagina paginaSinTabla =
      Except.error (SecopErr.parsing "No se encontró tabla de resultados en el HTML.")
    ∧ parsear_pagina paginaTablaVacia =
      Except.error (SecopErr.parsing "Tabla encontrada pero sin filas de datos.")
    ∧ claseDe (SecopErr.parsing "No se encontró tabla de resultados en el HTML.") =
      claseDe (SecopErr.parsing "Tabla encontrada pero sin filas de datos.")
    ∧ ClaseErr.parsing ≠ ClaseErr.emptyTable := by
  decide

/-- C5 amended: both single-page failure conditions raise the parsing
error class, with distinct messages ("no table" vs "empty table");
`SecopEmptyTableError` is raised one level up, by the multi-page
consolidation, when no page yields data. -/
theorem C5_errores_parsing (soup : Node) :
    (_encontrar_tabla soup = none →
      parsear_pagina soup =
        Except.error (SecopErr.parsing "No se encontró tabla de resultados en el HTML."))
    ∧ (∀ t : Node, _encontrar_tabla soup = some t → _extraer_filas t = [] →
      parsear_pagina soup =
        Except.error (SecopErr.parsing "Tabla encontrada pero sin filas de datos."))
    ∧ ("No se encontró tabla de resultados en el HTML." ≠
        "Tabla encontrada pero sin filas de datos.")
    ∧ (∀ pags : List Node, pags ≠ [] →
        (∀ q ∈ pags, ∃ m, parsear_pagina q = Except.error (SecopErr.parsing m)) →
        ∃ m2, parsear_todas_paginas pags = Except.error (SecopErr.emptyTable m2)) := by
  refine ⟨fun h => ?_, fun t ht hf => ?_, by decide, fun pags hne hall => ?_⟩
  · unfold parsear_pagina
    rw [h]
  · unfold parsear_pagina
    rw [ht]
    simp [hf]
  · cases pags with
    | nil => exact absurd rfl hne
    | cons a l =>
      have hdf : (a :: l).filterMap (fun q => (parsear_pagina q).toOption) = [] := by
        rw [List.filterMap_eq_nil_iff]
        intro q hq
        rcases hall q hq with ⟨m, hm⟩
        rw [hm]
        rfl
      exact ⟨_, by unfold parsear_todas_paginas; rw [hdf]; rfl⟩

/-- C5 amended witness at concrete pages. -/
theorem C5_errores_parsing_witness :
    parsear_pagina paginaSinTabla =
      Except.error (SecopErr.parsing "No se encontró tabla de resultados en el HTML.")
    ∧ parsear_pagina paginaTablaVacia =
      Except.error (SecopErr.parsing "Tabla encontrada pero sin filas de datos.")
    ∧ ∃ m2, parsear_todas_paginas [paginaSinTabla, paginaTablaVacia] =
        Except.error (SecopErr.emptyTable m2) := by
  refine ⟨(C5_errores_parsing paginaSinTabla).1 rfl,
    (C5_errores_parsing paginaTablaVacia).2.1
      (Node.elem "table" [("class", "tbl_resulados")]
        [Node.elem "tr" [] [Node.elem "th" [] [Node.text "Numero"]]])
      rfl rfl, ?_⟩
  refine (C5_errores_parsing paginaSinTabla).2.2.2
    [paginaSinTabla, paginaTablaVacia] (by simp) ?_
  intro q hq
  rcases List.mem_cons.1 hq with h | h
  · exact ⟨"No se encontró tabla de resultados en el HTML.", by rw [h]; decide⟩
  · rcases List.mem_cons.1 h with h2 | h2
    · exact ⟨"Tabla encontrada pero sin filas de datos.", by rw [h2]; decide⟩
    · simp at h2

/-- C6: consolidating the same parseable page twice yields exactly the
same frame as consolidating it once — pagination-overlap duplicates are
fully removed — and in particular the same distinct-row count. -/
theorem C6_consolidacion_idempotente (p : Node) (df : DataFrame)
    (h : parsear_pagina p = Except.ok df) :
    parsear_todas_paginas [p, p] = parsear_todas_paginas [p]
    ∧ (∀ d2 d1, parsear_todas_paginas [p, p] = Except.ok d2 →
        parsear_todas_paginas [p] = Except.ok d1 →
        d2.rows.length = d1.rows.length) := by
  have hfm2 : [p, p].filterMap (fun q => (parsear_pagina q).toOption) = [df, df] := by
    simp [h, Except.toOption]
  have hfm1 : [p].filterMap (fun q => (parsear_pagina q).toOption) = [df] := by
    simp [h, Except.toOption]
  have hpp : parsear_todas_paginas [p, p] =
      Except.ok (dropDuplicatesDf (concatFrames df df)) := by
    unfold parsear_todas_paginas
    rw [hfm2]
    rfl
  have hp1 : parsear_todas_paginas [p] = Except.ok (dropDuplicatesDf df) := by
    unfold parsear_todas_paginas
    rw [hfm1]
    rfl
  have hcl := dropDup_concat_self df
  refine ⟨by rw [hpp, hp1, hcl], fun d2 d1 e2 e1 => ?_⟩
  rw [hpp, hcl] at e2
  rw [hp1] at e1
  injection e2 with e2'
  injection e1 with e1'
  rw [← e2', ← e1']

/-- C6 witness at a concrete page. -/
theorem C6_consolidacion_idempotente_witness :
    parsear_todas_paginas [paginaEjemplo, paginaEjemplo] =
      parsear_todas_paginas [paginaEjemplo] :=
  (C6_consolidacion_idempotente paginaEjemplo dfEjemplo (by decide)).1

/-! ### Lemmas for the historical merge -/

/-- The key projection used by the historical merge. -/
def claveProceso (cols : List String) (r : List Cell) : Cell :=
  r.getD (idxCol "numero_proceso" cols) Cell.null

theorem getLast?_cons_isSome {α : Type} (a : α) (l : List α) :
    ∃ x, (a :: l).getLast? = some x := by
  induction l generalizing a with
  | nil => exact ⟨a, rfl⟩
  | cons b t ih =>
    rcases ih b with ⟨x, hx⟩
    exact ⟨x, by rw [List.getLast?_cons_cons]; exact hx⟩

theorem getLast?_toList_ne {α : Type} {l : List α} :
    (l.getLast?).toList ≠ [] ↔ l ≠ [] := by
  cases l with
  | nil => simp
  | cons a t =>
    rcases getLast?_cons_isSome a t with ⟨x, hx⟩
    rw [hx]
    simp

theorem filtro_dedupUltimoPor (f : List Cell → Cell) (k : Cell) :
    ∀ rows : List (List Cell),
      (dedupUltimoPor f rows).filter (fun r => f r == k) =
      ((rows.filter (fun r => f r == k)).getLast?).toList := by
  intro rows
  induction rows with
  | nil => rfl
  | cons r rs ih =>
    unfold dedupUltimoPor
    by_cases hdup : rs.any (fun q => f q == f r) = true
    · rw [if_pos hdup, ih]
      by_cases hk : (f r == k) = true
      · have hex : ∃ q ∈ rs, f q = f r := by
          rcases List.any_eq_true.1 hdup with ⟨q, hq, hq2⟩
          exact ⟨q, hq, eq_of_beq hq2⟩
        have hfil : rs.filter (fun r => f r == k) ≠ [] := by
          rcases hex with ⟨q, hq, hfq⟩
          intro hnil
          have hmem : q ∈ rs.filter (fun r => f r == k) :=
            List.mem_filter.2 ⟨hq, by rw [hfq]; exact hk⟩
          rw [hnil] at hmem
          simp at hmem
        rw [List.filter_cons, if_pos hk]
        cases hfc : rs.filter (fun r => f r == k) with
        | nil => exact absurd hfc hfil
        | cons b t => rw [List.getLast?_cons_cons]
      · rw [List.filter_cons, if_neg hk]
    · rw [if_neg hdup]
      have hnodup : ∀ q ∈ rs, ¬ (f q = f r) := by
        intro q hq he
        exact hdup (List.any_eq_true.2 ⟨q, hq, by rw [he]; exact beq_self_eq_true (f r)⟩)
      by_cases hk : (f r == k) = true
      · have hfr : f r = k := eq_of_beq hk
        have hfilrs : rs.filter (fun r => f r == k) = [] := by
          rw [List.filter_eq_nil_iff]
          intro q hq hq2
          exact hnodup q hq (by rw [eq_of_beq hq2, hfr])
        rw [List.filter_cons, if_pos hk, ih, hfilrs,
          List.filter_cons, if_pos hk, hfilrs]
        rfl
      · rw [List.filter_cons, if_neg hk, ih, List.filter_cons, if_neg hk]

/-- C7: merging new records into the historical store deduplicates by the
process-number key keeping the most recently appended record — the set of
rows with key `k` in the merged store is exactly the *last* row with key
`k` of the concatenation `historic ++ new` — and a key is present in the
merged store exactly when it is present in either snapshot. -/
theorem C7_fusion_historica (h n : DataFrame)
    (hcols : h.cols = n.cols)
    (hk : h.cols.contains "numero_proceso" = true) :
    (∀ k : Cell, (actualizar_base_historica h n "numero_proceso").rows.filter
        (fun r => claveProceso h.cols r == k) =
        (((h.rows ++ n.rows).filter
          (fun r => claveProceso h.cols r == k)).getLast?).toList)
    ∧ (∀ k : Cell, ((actualizar_base_historica h n "numero_proceso").rows.filter
        (fun r => claveProceso h.cols r == k) ≠ [] ↔
        (h.rows.filter (fun r => claveProceso h.cols r == k) ≠ [] ∨
         n.rows.filter (fun r => claveProceso h.cols r == k) ≠ []))) := by
  have hne : ¬ ((h.cols.isEmpty && h.rows.isEmpty) = true) := by
    intro hb
    rw [Bool.and_eq_true] at hb
    have h1 := hb.1
    cases hc0 : h.cols with
    | nil => rw [hc0] at hk; exact absurd hk (by decide)
    | cons a t => rw [hc0] at h1; simp at h1
  have hmrows : (actualizar_base_historica h n "numero_proceso").rows =
      dedupUltimoPor (claveProceso h.cols) (h.rows ++ n.rows) := by
    unfold actualizar_base_historica concatHist
    rw [if_neg hne, if_pos hcols]
    simp only [concatFrames]
    rw [if_pos hk]
    rfl
  refine ⟨fun k => ?_, fun k => ?_⟩
  · rw [hmrows]
    exact filtro_dedupUltimoPor (claveProceso h.cols) k (h.rows ++ n.rows)
  · rw [hmrows, filtro_dedupUltimoPor (claveProceso h.cols) k (h.rows ++ n.rows),
      List.filter_append, getLast?_toList_ne]
    rw [ne_eq, List.append_eq_nil, not_and_or]

/-- C7 witness: the shared key `P2` keeps only the later payload and the
key set is the union. -/
theorem C7_fusion_historica_witness :
    (actualizar_base_historica histBase histNuevo "numero_proceso").rows.filter
      (fun r => claveProceso histBase.cols r == Cell.str "P2") =
      ((((histBase.rows ++ histNuevo.rows).filter
        (fun r => claveProceso histBase.cols r == Cell.str "P2")).getLast?).toList)
    ∧ ((actualizar_base_historica histBase histNuevo "numero_proceso").rows.filter
      (fun r => claveProceso histBase.cols r == Cell.str "P3") ≠ [] ↔
      (histBase.rows.filter (fun r => claveProceso histBase.cols r == Cell.str "P3") ≠ [] ∨
       histNuevo.rows.filter (fun r => claveProceso histBase.cols r == Cell.str "P3") ≠ [])) :=
  ⟨(C7_fusion_historica histBase histNuevo rfl (by decide)).1 (Cell.str "P2"),
   (C7_fusion_historica histBase histNuevo rfl (by decide)).2 (Cell.str "P3")⟩

/-! ### Lemmas for empty-row elimination -/

theorem all_congr_mem {α : Type} {p q : α → Bool} :
    ∀ {l : List α}, (∀ x ∈ l, p x = q x) → l.all p = l.all q := by
  intro l
  induction l with
  | nil => intro _; rfl
  | cons a t ih =>
    intro h
    rw [List.all_cons, List.all_cons, h a (List.mem_cons_self a t),
      ih (fun x hx => h x (List.mem_cons_of_mem a hx))]

theorem filaObjVacia_replicate :
    ∀ (r : List Cell) (k : Nat), r.length = k →
      filaObjVacia (List.replicate k DType.obj) r =
        r.all (fun c => pyStrip (cellToPyStr c) == "") := by
  intro r
  induction r with
  | nil => intro k hk; rw [← hk]; rfl
  | cons c t ih =>
    intro k hk
    cases k with
    | zero => simp at hk
    | succ k2 =>
      have ht : t.length = k2 := by simpa using hk
      rw [List.replicate_succ]
      unfold filaObjVacia
      rw [List.zip_cons_cons, List.filter_cons]
      simp only [beq_self_eq_true, if_true]
      rw [List.all_cons]
      have ih2 := ih k2 ht
      unfold filaObjVacia at ih2
      rw [ih2]
      rfl

/-- C9: after string normalization (all cells are strings, all columns are
object-dtype), the empty-row elimination removes exactly the rows whose
every field is blank, and keeps every row with at least one non-blank
field. -/
theorem C9_eliminacion_filas_vacias (df : DataFrame)
    (hdt : df.dtypes = List.replicate df.cols.length DType.obj)
    (hc : df.cols ≠ []) :
    ∀ r ∈ df.rows, r.length = df.cols.length →
      (∀ c ∈ r, ∃ s, c = Cell.str s) →
      ((r.all celdaEnBlanco = true → r ∉ (eliminar_filas_vacias df).rows)
       ∧ (r.all celdaEnBlanco = false → r ∈ (eliminar_filas_vacias df).rows)) := by
  intro r hr hlen hstr
  have hblanco : r.all celdaEnBlanco =
      r.all (fun c => pyStrip (cellToPyStr c) == "") := by
    refine all_congr_mem (fun c hcm => ?_)
    rcases hstr c hcm with ⟨s, hs⟩
    rw [hs]
    rfl
  have hnn : (r.all (fun c => c == Cell.null)) = false := by
    cases hre : r with
    | nil =>
      exfalso
      rw [hre] at hlen
      exact hc (List.eq_nil_of_length_eq_zero (by simpa using hlen.symm))
    | cons c t =>
      rcases hstr c (by rw [hre]; exact List.mem_cons_self c t) with ⟨s, hs⟩
      simp [hs]
  have hay : (df.dtypes.any (fun dt => dt == DType.obj)) = true := by
    rw [hdt]
    cases hcols : df.cols with
    | nil => exact absurd hcols hc
    | cons a t => simp [List.replicate_succ]
  have hobj : (eliminar_filas_vacias df).rows =
      (df.rows.filter (fun r => !(r.all (fun c => c == Cell.null)))).filter
        (fun r => !filaObjVacia df.dtypes r) := by
    unfold eliminar_filas_vacias dropnaTodo filtrarFilasObjVacias
    rw [if_pos hay]
  have hP : filaObjVacia df.dtypes r = r.all celdaEnBlanco := by
    rw [hdt, filaObjVacia_replicate r df.cols.length hlen, hblanco]
  constructor
  · intro hb
    rw [hobj]
    intro hmem
    have h2 := (List.mem_filter.1 hmem).2
    rw [hP, hb] at h2
    simp at h2
  · intro hb
    rw [hobj]
    refine List.mem_filter.2 ⟨List.mem_filter.2 ⟨hr, ?_⟩, ?_⟩
    · rw [hnn]; rfl
    · rw [hP, hb]; rfl

/-- C9 witness: the all-blank row is removed, the row with a non-blank
field is retained. -/
theorem C9_eliminacion_filas_vacias_witness :
    ([Cell.str "", Cell.str ""] ∉ (eliminar_filas_vacias dfNormalizado).rows)
    ∧ ([Cell.str "P-9", Cell.str ""] ∈ (eliminar_filas_vacias dfNormalizado).rows) := by
  have hstr1 : ∀ c ∈ [Cell.str "", Cell.str ""], ∃ s, c = Cell.str s := by
    intro c hcm
    rcases List.mem_cons.1 hcm with h | h
    · exact ⟨"", h⟩
    · rcases List.mem_cons.1 h with h2 | h2
      · exact ⟨"", h2⟩
      · simp at h2
  have hstr2 : ∀ c ∈ [Cell.str "P-9", Cell.str ""], ∃ s, c = Cell.str s := by
    intro c hcm
    rcases List.mem_cons.1 hcm with h | h
    · exact ⟨"P-9", h⟩
    · rcases List.mem_cons.1 h with h2 | h2
      · exact ⟨"", h2⟩
      · simp at h2
  exact ⟨(C9_eliminacion_filas_vacias dfNormalizado rfl (by decide)
      [Cell.str "", Cell.str ""] (by decide) (by decide) hstr1).1 (by decide),
    (C9_eliminacion_filas_vacias dfNormalizado rfl (by decide)
      [Cell.str "P-9", Cell.str ""] (by decide) (by decide) hstr2).2 (by decide)⟩

/-! ### Lemmas for the object-identity claims -/

theorem leerF_append_lt (s : Store) (d : DataFrame) :
    ∀ {k : Nat}, k < tamStore s → leerF (s ++ [d]) k = leerF s k := by
  induction s with
  | nil => intro k hk; exact absurd hk (by simp [tamStore])
  | cons a t ih =>
    intro k hk
    cases k with
    | zero => rfl
    | succ k2 => exact ih (Nat.lt_of_succ_lt_succ hk)

theorem leerF_set_ne :
    ∀ (s : Store) (j : Nat) (d : DataFrame) {k : Nat}, k ≠ j →
      leerF (mutar s j d) k = leerF s k := by
  intro s
  induction s with
  | nil => intro j d k _; rfl
  | cons a t ih =>
    intro j d k hne
    cases j with
    | zero =>
      cases k with
      | zero => exact absurd rfl hne
      | succ k2 => rfl
    | succ j2 =>
      cases k with
      | zero => rfl
      | succ k2 => exact ih j2 d (fun he => hne (congrArg Nat.succ he))

theorem tamStore_append (s : Store) (d : DataFrame) :
    tamStore (s ++ [d]) = tamStore s + 1 := by
  unfold tamStore
  simp

theorem tamStore_mutar (s : Store) (j : Nat) (d : DataFrame) :
    tamStore (mutar s j d) = tamStore s := by
  unfold tamStore mutar
  exact List.length_set s j d

theorem copiaMuta_spec (s : Store) (x v : DataFrame) :
    (∀ k, k < tamStore s →
      leerF (mutar (s ++ [x]) (tamStore s) v) k = leerF s k)
    ∧ tamStore (mutar (s ++ [x]) (tamStore s) v) = tamStore s + 1 := by
  constructor
  · intro k hk
    rw [leerF_set_ne _ _ _ (Nat.ne_of_lt hk), leerF_append_lt s x hk]
  · rw [tamStore_mutar, tamStore_append]

theorem normalizar_prog_spec (s : Store) (i : Nat) :
    (∀ k, k < tamStore s → leerF (normalizar_strings_prog s i).1 k = leerF s k)
    ∧ tamStore s ≤ (normalizar_strings_prog s i).2
    ∧ (normalizar_strings_prog s i).2 < tamStore (normalizar_strings_prog s i).1
    ∧ tamStore s ≤ tamStore (normalizar_strings_prog s i).1 := by
  unfold normalizar_strings_prog alojar
  rcases copiaMuta_spec s (leerF s i)
    (normalizar_strings (leerF (s ++ [leerF s i]) (tamStore s))) with ⟨h1, h2⟩
  exact ⟨h1, Nat.le_refl _, by rw [h2]; exact Nat.lt_succ_self _,
    by rw [h2]; exact Nat.le_succ _⟩

theorem renombrar_prog_spec (s : Store) (i : Nat)
    (mapeo : Option (List (String × String))) :
    (∀ k, k < tamStore s → leerF (renombrar_columnas_prog s i mapeo).1 k = leerF s k)
    ∧ tamStore s ≤ (renombrar_columnas_prog s i mapeo).2
    ∧ (renombrar_columnas_prog s i mapeo).2 <
        tamStore (renombrar_columnas_prog s i mapeo).1
    ∧ tamStore s ≤ tamStore (renombrar_columnas_prog s i mapeo).1 := by
  unfold renombrar_columnas_prog alojar
  rcases copiaMuta_spec s (leerF s i)
    (renombrar_columnas (leerF (s ++ [leerF s i]) (tamStore s)) mapeo) with ⟨h1, h2⟩
  exact ⟨h1, Nat.le_refl _, by rw [h2]; exact Nat.lt_succ_self _,
    by rw [h2]; exact Nat.le_succ _⟩

theorem monetarias_prog_spec (s : Store) (i : Nat) :
    (∀ k, k < tamStore s →
      leerF (convertir_columnas_monetarias_prog s i).1 k = leerF s k)
    ∧ tamStore s ≤ (convertir_columnas_monetarias_prog s i).2
    ∧ (convertir_columnas_monetarias_prog s i).2 <
        tamStore (convertir_columnas_monetarias_prog s i).1
    ∧ tamStore s ≤ tamStore (convertir_columnas_monetarias_prog s i).1 := by
  unfold convertir_columnas_monetarias_prog alojar
  rcases copiaMuta_spec s (leerF s i)
    (convertir_columnas_monetarias
      (leerF (s ++ [leerF s i]) (tamStore s))) with ⟨h1, h2⟩
  exact ⟨h1, Nat.le_refl _, by rw [h2]; exact Nat.lt_succ_self _,
    by rw [h2]; exact Nat.le_succ _⟩

theorem fecha_prog_spec (s : Store) (i : Nat) :
    (∀ k, k < tamStore s →
      leerF (convertir_columnas_fecha_prog s i).1 k = leerF s k)
    ∧ tamStore s ≤ (convertir_columnas_fecha_prog s i).2
    ∧ (convertir_columnas_fecha_prog s i).2 <
        tamStore (convertir_columnas_fecha_prog s i).1
    ∧ tamStore s ≤ tamStore (convertir_columnas_fecha_prog s i).1 := by
  unfold convertir_columnas_fecha_prog alojar
  rcases copiaMuta_spec s (leerF s i)
    (convertir_columnas_fecha
      (leerF (s ++ [leerF s i]) (tamStore s))) with ⟨h1, h2⟩
  exact ⟨h1, Nat.le_refl _, by rw [h2]; exact Nat.lt_succ_self _,
    by rw [h2]; exact Nat.le_succ _⟩

theorem eliminar_prog_spec (s : Store) (i : Nat) :
    (∀ k, k < tamStore s → leerF (eliminar_filas_vacias_prog s i).1 k = leerF s k)
    ∧ tamStore s ≤ (eliminar_filas_vacias_prog s i).2
    ∧ (eliminar_filas_vacias_prog s i).2 <
        tamStore (eliminar_filas_vacias_prog s i).1
    ∧ tamStore s ≤ tamStore (eliminar_filas_vacias_prog s i).1 := by
  unfold eliminar_filas_vacias_prog alojar
  rcases copiaMuta_spec s (leerF s i)
    (dropnaTodo (leerF (s ++ [leerF s i]) (tamStore s))) with ⟨h1, h2⟩
  dsimp only
  split
  · refine ⟨fun k hk => ?_, ?_, ?_, ?_⟩
    · rw [leerF_append_lt _ _ (by rw [h2]; exact Nat.lt_succ_of_lt hk), h1 k hk]
    · rw [h2]; exact Nat.le_succ _
    · rw [tamStore_append, h2]
      exact Nat.lt_succ_self _
    · rw [tamStore_append, h2]
      exact Nat.le_succ_of_le (Nat.le_succ _)
  · exact ⟨h1, Nat.le_refl _, by rw [h2]; exact Nat.lt_succ_self _,
      by rw [h2]; exact Nat.le_succ _⟩

theorem limpiar_prog_spec (s : Store) (i : Nat)
    (mapeo : Option (List (String × String))) :
    (∀ k, k < tamStore s → leerF (limpiar_dataframe_prog s i mapeo).1 k = leerF s k)
    ∧ tamStore s ≤ (limpiar_dataframe_prog s i mapeo).2 := by
  unfold limpiar_dataframe_prog
  rcases he1 : normalizar_strings_prog s i with ⟨s1, i1⟩
  rcases he2 : eliminar_filas_vacias_prog s1 i1 with ⟨s2, i2⟩
  rcases he3 : renombrar_columnas_prog s2 i2 mapeo with ⟨s3, i3⟩
  rcases he4 : convertir_columnas_monetarias_prog s3 i3 with ⟨s4, i4⟩
  rcases he5 : convertir_columnas_fecha_prog s4 i4 with ⟨s5, i5⟩
  have H1 := normalizar_prog_spec s i
  have H2 := eliminar_prog_spec s1 i1
  have H3 := renombrar_prog_spec s2 i2 mapeo
  have H4 := monetarias_prog_spec s3 i3
  have H5 := fecha_prog_spec s4 i4
  rw [he1] at H1
  rw [he2] at H2
  rw [he3] at H3
  rw [he4] at H4
  rw [he5] at H5
  dsimp only
  rw [he2]
  dsimp only
  rw [he3]
  dsimp only
  rw [he4]
  dsimp only
  rw [he5]
  dsimp only
  dsimp only at H1 H2 H3 H4 H5
  have l01 : tamStore s ≤ tamStore s1 := H1.2.2.2
  have l12 : tamStore s1 ≤ tamStore s2 := H2.2.2.2
  have l23 : tamStore s2 ≤ tamStore s3 := H3.2.2.2
  have l34 : tamStore s3 ≤ tamStore s4 := H4.2.2.2
  constructor
  · intro k hk
    rw [H5.1 k (by omega), H4.1 k (by omega), H3.1 k (by omega),
      H2.1 k (by omega), H1.1 k hk]
  · have := H5.2.1
    omega

/-- C10: every cleaning function — string normalization, empty-row
elimination, column renaming, money conversion, date conversion, and the
composed `limpiar_dataframe` — allocates and returns a new frame object
(index at or beyond the old store length) and leaves every pre-existing
frame object, in particular its input, unchanged. -/
theorem C10_inmutabilidad_limpieza :
    (∀ (s : Store) (i : Nat), i < tamStore s →
      (∀ k, k < tamStore s → leerF (normalizar_strings_prog s i).1 k = leerF s k)
      ∧ tamStore s ≤ (normalizar_strings_prog s i).2)
    ∧ (∀ (s : Store) (i : Nat), i < tamStore s →
      (∀ k, k < tamStore s → leerF (eliminar_filas_vacias_prog s i).1 k = leerF s k)
      ∧ tamStore s ≤ (eliminar_filas_vacias_prog s i).2)
    ∧ (∀ (s : Store) (i : Nat) (mapeo : Option (List (String × String))),
      i < tamStore s →
      (∀ k, k < tamStore s → leerF (renombrar_columnas_prog s i mapeo).1 k = leerF s k)
      ∧ tamStore s ≤ (renombrar_columnas_prog s i mapeo).2)
    ∧ (∀ (s : Store) (i : Nat), i < tamStore s →
      (∀ k, k < tamStore s →
        leerF (convertir_columnas_monetarias_prog s i).1 k = leerF s k)
      ∧ tamStore s ≤ (convertir_columnas_monetarias_prog s i).2)
    ∧ (∀ (s : Store) (i : Nat), i < tamStore s →
      (∀ k, k < tamStore s →
        leerF (convertir_columnas_fecha_prog s i).1 k = leerF s k)
      ∧ tamStore s ≤ (convertir_columnas_fecha_prog s i).2)
    ∧ (∀ (s : Store) (i : Nat) (mapeo : Option (List (String × String))),
      i < tamStore s →
      (∀ k, k < tamStore s → leerF (limpiar_dataframe_prog s i mapeo).1 k = leerF s k)
      ∧ tamStore s ≤ (limpiar_dataframe_prog s i mapeo).2) :=
  ⟨fun s i _ => ⟨(normalizar_prog_spec s i).1, (normalizar_prog_spec s i).2.1⟩,
   fun s i _ => ⟨(eliminar_prog_spec s i).1, (eliminar_prog_spec s i).2.1⟩,
   fun s i mapeo _ => ⟨(renombrar_prog_spec s i mapeo).1,
     (renombrar_prog_spec s i mapeo).2.1⟩,
   fun s i _ => ⟨(monetarias_prog_spec s i).1, (monetarias_prog_spec s i).2.1⟩,
   fun s i _ => ⟨(fecha_prog_spec s i).1, (fecha_prog_spec s i).2.1⟩,
   fun s i mapeo _ => ⟨(limpiar_prog_spec s i mapeo).1,
     (limpiar_prog_spec s i mapeo).2⟩⟩

/-- C10 witness: running the composed pipeline on a one-frame store leaves
the input frame untouched and returns a fresh index. -/
theorem C10_inmutabilidad_limpieza_witness :
    leerF (limpiar_dataframe_prog [dfNormalizado] 0 none).1 0 = leerF [dfNormalizado] 0
    ∧ tamStore [dfNormalizado] ≤ (limpiar_dataframe_prog [dfNormalizado] 0 none).2
    ∧ leerF (normalizar_strings_prog [dfNormalizado] 0).1 0 = leerF [dfNormalizado] 0 :=
  ⟨((C10_inmutabilidad_limpieza.2.2.2.2.2) [dfNormalizado] 0 none (by decide)).1
      0 (by decide),
   ((C10_inmutabilidad_limpieza.2.2.2.2.2) [dfNormalizado] 0 none (by decide)).2,
   (C10_inmutabilidad_limpieza.1 [dfNormalizado] 0 (by decide)).1 0 (by decide)⟩

end Secop
